import Mathlib

/-!
Verification of the dashboard-generator compilation core.

This file embeds the reference-resolution, grid-layout, panel-factory and
dashboard-builder code of the repository (internal/config/config.go,
internal/generator/layout.go, internal/generator/panel.go,
internal/generator/dashboard.go, internal/generator/helpers.go,
internal/generator/idgen.go) as executable Lean definitions and proves
properties of them.

Modelling conventions:
- Go `map[string]interface{}` values (YAML-derived panel specs and the JSON
  documents the generator emits) are modelled by the inductive type `Json`;
  objects are association lists read through `lookup` (first binding wins,
  mirroring a Go map that never holds duplicate keys).
- Go numbers (int, int64, float64) all collapse into `Json.num` carrying a
  rational; Go's `int(f)` conversion (truncation toward zero) is `ratToInt`.
- Go maps used as named tables (datasources, palettes, thresholds, selectors,
  constants, variables) are association lists; Go map iteration order, which
  is unspecified, is modelled by list order.
- The id generator's counter is a `Nat`: it is only ever created at 0, reset
  to 0, or incremented, so no reachable Go state is negative.
- Functions returning `(T, error)` in Go become `Except String T`.
-/

/-- JSON-like dynamic values, standing in for Go's `interface{}` trees. -/
inductive Json where
  | null
  | bool (b : Bool)
  | num (q : ℚ)
  | str (s : String)
  | arr (elems : List Json)
  | obj (fields : List (String × Json))

/-- Association-list object type standing in for Go's `map[string]interface{}`. -/
abbrev Obj := List (String × Json)

/-- Lookup of a key in an object: Go's `v, ok := m[key]` with `ok` as `Option`. -/
def lookup (m : Obj) (k : String) : Option Json :=
  match m with
  | [] => none
  | (k', v) :: rest => if k' = k then some v else lookup rest k

/-- Go's `int(q)` for a float value: truncation toward zero. -/
def ratToInt (q : ℚ) : Int := Int.tdiv q.num (Int.ofNat q.den)

/-- helpers.go getString: returns the value if present and a string, else the default. -/
def getString (m : Obj) (key def_ : String) : String :=
  match lookup m key with
  | some (Json.str s) => s
  | _ => def_

/-- helpers.go getInt: present numeric value truncated to int, else the default. -/
def getInt (m : Obj) (key : String) (def_ : Int) : Int :=
  match lookup m key with
  | some (Json.num q) => ratToInt q
  | _ => def_

/-- helpers.go getFloat: present numeric value, else the default. -/
def getFloat (m : Obj) (key : String) (def_ : ℚ) : ℚ :=
  match lookup m key with
  | some (Json.num q) => q
  | _ => def_

/-- helpers.go getNumber: present numeric value, else the default (the Go int
versus float64 distinction collapses in the rational-valued model). -/
def getNumber (m : Obj) (key : String) (def_ : ℚ) : Json :=
  match lookup m key with
  | some (Json.num q) => Json.num q
  | _ => Json.num def_

/-- helpers.go getBool: present boolean value, else the default. -/
def getBool (m : Obj) (key : String) (def_ : Bool) : Bool :=
  match lookup m key with
  | some (Json.bool b) => b
  | _ => def_

/-- helpers.go getStringSlice: a present list is returned as-is, else the
default strings are wrapped as JSON values. -/
def getStringSlice (m : Obj) (key : String) (def_ : List String) : List Json :=
  match lookup m key with
  | some (Json.arr s) => s
  | _ => def_.map Json.str

/-- helpers.go getStringSliceAsStrings: keeps only the string entries of a
present list; an absent or non-list value yields the empty (Go nil) slice. -/
def getStringSliceAsStrings (m : Obj) (key : String) : List String :=
  match lookup m key with
  | some (Json.arr s) =>
      s.filterMap (fun item => match item with | Json.str str => some str | _ => none)
  | _ => []

/-- Prefix test on character lists (first argument is the candidate prefix). -/
def listStarts : List Char → List Char → Bool
  | [], _ => true
  | _ :: _, [] => false
  | a :: as, b :: bs => a == b && listStarts as bs

/-- helpers.go contains, i.e. Go's strings.Contains: substring occurrence. -/
def strContains (s substr : String) : Bool :=
  (List.range (s.data.length + 1)).any (fun i => listStarts substr.data (s.data.drop i))

/-- Go's strings.HasPrefix on the character-list model. -/
def strHasPref (s pre : String) : Bool := listStarts pre.data s.data

/-- config.go DatasourceDef: one datasource entry of the config table. -/
structure DatasourceDef where
  dtype : String
  uid : String
  url : String
  isDefault : Bool
deriving DecidableEq

/-- config.go DatasourceRef: the resolved type/uid pair used in panels. -/
structure DatasourceRef where
  dtype : String
  uid : String
deriving DecidableEq

/-- config.go ThresholdStep: a color plus a numeric-or-null value. -/
structure ThresholdStep where
  color : String
  value : Json

/-- config.go VariableDef: a template-variable definition (Default struct flattened). -/
structure VariableDef where
  vtype : String
  datasource : String
  query : String
  multi : Bool
  includeAll : Bool
  refresh : Int
  sort : Int
  label : String
  hide : Int
  regex : String
  allValue : String
  values : String
  dsType : String
  auto : Bool
  autoCount : Int
  autoMin : String
  defaultText : String
  defaultValue : String

/-- config.go Config, restricted to the tables the compilation core reads.
The generator/discovery/profile/dashboard sections and cliArgs are consumed
only by collaborators outside the claims and are omitted. -/
structure Config where
  datasources : List (String × DatasourceDef)
  palettes : List (String × List (String × String))
  activePalette : String
  thresholds : List (String × List ThresholdStep)
  selectors : List (String × String)
  constants : List (String × String)
  variableDefs : List (String × VariableDef)

/-- Assoc-list lookup for the string-keyed config tables. -/
def tblLookup {α : Type} (t : List (String × α)) (k : String) : Option α :=
  match t with
  | [] => none
  | (k', v) :: rest => if k' = k then some v else tblLookup rest k

/-- config.go resolvePalette: the active palette, or empty when absent. -/
def Config.palette (c : Config) : List (String × String) :=
  match tblLookup c.palettes c.activePalette with
  | some p => p
  | none => []

/-- config.go GetDatasource: the type/uid reference, or an error when unknown. -/
def Config.GetDatasource (c : Config) (name : String) : Except String DatasourceRef :=
  match tblLookup c.datasources name with
  | some ds => Except.ok { dtype := ds.dtype, uid := ds.uid }
  | none => Except.error ("datasource '" ++ name ++ "' not defined in config")

/-- config.go GetDefaultDatasource: first is_default entry, else the first
entry (Go iterates the map in unspecified order; the list order stands in),
else a built-in prometheus reference. Never fails. -/
def Config.GetDefaultDatasource (c : Config) : DatasourceRef :=
  match c.datasources.find? (fun kv => kv.2.isDefault) with
  | some kv => { dtype := kv.2.dtype, uid := kv.2.uid }
  | none =>
    match c.datasources with
    | kv :: _ => { dtype := kv.2.dtype, uid := kv.2.uid }
    | [] => { dtype := "prometheus", uid := "prometheus" }

/-- config.go GetConstant: Go map read with the zero value "" on a miss. -/
def Config.GetConstant (c : Config) (name : String) : String :=
  match tblLookup c.constants name with
  | some v => v
  | none => ""

/-- config.go GetSelector: Go map read with the zero value "" on a miss. -/
def Config.GetSelector (c : Config) (name : String) : String :=
  match tblLookup c.selectors name with
  | some v => v
  | none => ""

/-- config.go resolveColorName: palette hit gives the hex value, miss gives
the bare name back. -/
def Config.resolveColorName (c : Config) (name : String) : String :=
  match tblLookup c.palette name with
  | some hex => hex
  | none => name

/-- config.go ResolveColor: a leading dollar sign sends the remainder through
the palette; anything else passes through unchanged. -/
def Config.ResolveColor (c : Config) (value : String) : String :=
  if strHasPref value "$" then c.resolveColorName (String.mk (value.data.drop 1))
  else value

/-- config.go GetThresholds: nil (None) on a miss, else the steps with
dollar-prefixed colors resolved through the palette. -/
def Config.GetThresholds (c : Config) (name : String) : Option (List ThresholdStep) :=
  match tblLookup c.thresholds name with
  | none => none
  | some t =>
    some (t.map (fun step =>
      if strHasPref step.color "$" then
        { step with color := c.resolveColorName (String.mk (step.color.data.drop 1)) }
      else step))

/-- config.go ResolveThresholds: a dollar-name string is looked up as a named
threshold set; an inline list is resolved per entry skipping non-objects; the
Go nil result is `none`, a non-nil slice is `some`. -/
def Config.ResolveThresholds (c : Config) (value : Json) : Option (List ThresholdStep) :=
  match value with
  | Json.str v =>
    if strHasPref v "$" then c.GetThresholds (String.mk (v.data.drop 1)) else none
  | Json.arr items =>
    some (items.filterMap (fun item =>
      match item with
      | Json.obj m =>
        some { color :=
                 (match lookup m "color" with
                  | some (Json.str col) =>
                    if strHasPref col "$" then c.resolveColorName (String.mk (col.data.drop 1))
                    else col
                  | _ => ""),
               value := (lookup m "value").getD Json.null }
      | _ => none))
  | _ => none

/-- Word character of the RE2 word class used by the braced-reference regex. -/
def isWordChar (c : Char) : Bool := c.isAlphanum || c == '_'

/-- One reference replacement of config.go ResolveRef's closure: constants
first, then selectors, keeping the literal token when both give "". -/
def refRepl (cst sel : String → String) (name : List Char) : List Char :=
  if cst (String.mk name) ≠ "" then (cst (String.mk name)).data
  else if sel (String.mk name) ≠ "" then (sel (String.mk name)).data
  else '$' :: '{' :: (name ++ ['}'])

/-- Left-to-right scan of regexp.ReplaceAllStringFunc over the braced-reference
pattern: at a dollar-brace, a maximal nonempty run of word characters closed by
a brace is a match, replaced and skipped; everything else is copied and the
scan resumes at the next character. The fuel argument (at least the list
length at the entry point) makes the recursion structural so that the kernel
can evaluate it. -/
def refScan (cst sel : String → String) : Nat → List Char → List Char
  | 0, l => l
  | _ + 1, [] => []
  | fuel + 1, c :: rest =>
    if c = '$' then
      match rest with
      | c2 :: rest2 =>
        if c2 = '{' then
          match rest2.dropWhile isWordChar with
          | c3 :: tail =>
            if c3 = '}' then
              if rest2.takeWhile isWordChar = [] then c :: refScan cst sel fuel rest
              else refRepl cst sel (rest2.takeWhile isWordChar) ++ refScan cst sel fuel tail
            else c :: refScan cst sel fuel rest
          | [] => c :: refScan cst sel fuel rest
        else c :: refScan cst sel fuel rest
      | [] => c :: refScan cst sel fuel rest
    else c :: refScan cst sel fuel rest

/-- config.go ResolveRef: replace every braced reference, constants before
selectors, leaving unmatched tokens untouched. -/
def Config.ResolveRef (c : Config) (value : String) : String :=
  String.mk (refScan c.GetConstant c.GetSelector value.data.length value.data)

/-- Whether a character list contains a match of the braced-reference pattern. -/
def hasRef : List Char → Bool
  | [] => false
  | c :: rest =>
    if c = '$' then
      match rest with
      | c2 :: rest2 =>
        if c2 = '{' then
          match rest2.dropWhile isWordChar with
          | c3 :: _ =>
            if c3 = '}' then
              if rest2.takeWhile isWordChar = [] then hasRef rest else true
            else hasRef rest
          | [] => hasRef rest
        else hasRef rest
      | [] => false
    else hasRef rest

/-- layout.go LayoutEngine: the 24-unit grid cursor state. -/
structure LayoutEngine where
  gridWidth : Int
  cursorX : Int
  cursorY : Int
  rowHeight : Int
deriving DecidableEq

/-- layout.go NewLayoutEngine: fresh engine with the standard 24-unit grid. -/
def NewLayoutEngine : LayoutEngine :=
  { gridWidth := 24, cursorX := 0, cursorY := 0, rowHeight := 0 }

/-- layout.go Reset: zero the cursor state (the grid width is untouched). -/
def LayoutEngine.ResetL (le : LayoutEngine) : LayoutEngine :=
  { le with cursorX := 0, cursorY := 0, rowHeight := 0 }

/-- layout.go Place: wrap when the panel would overflow the grid, then report
the cursor, advance it by the width and grow the row height. -/
def LayoutEngine.Place (le : LayoutEngine) (width height : Int) :
    (Int × Int) × LayoutEngine :=
  let le1 :=
    if le.cursorX + width > le.gridWidth then
      { le with cursorY := le.cursorY + le.rowHeight, cursorX := 0, rowHeight := 0 }
    else le
  ((le1.cursorX, le1.cursorY),
   { le1 with
       cursorX := le1.cursorX + width,
       rowHeight := if height > le1.rowHeight then height else le1.rowHeight })

/-- layout.go AddRow: finish a partial row, return the row marker's y, then
reserve one unit of height. -/
def LayoutEngine.AddRow (le : LayoutEngine) : Int × LayoutEngine :=
  let le1 :=
    if le.cursorX > 0 then
      { le with cursorY := le.cursorY + le.rowHeight, cursorX := 0, rowHeight := 0 }
    else le
  (le1.cursorY, { le1 with cursorY := le1.cursorY + 1, cursorX := 0, rowHeight := 0 })

/-- layout.go FinishSection: advance past the tallest panel of a partial row. -/
def LayoutEngine.FinishSection (le : LayoutEngine) : LayoutEngine :=
  if le.cursorX > 0 then
    { le with cursorY := le.cursorY + le.rowHeight, cursorX := 0, rowHeight := 0 }
  else le

/-- idgen.go: the generator's state is its int counter, always reachable as a
natural number (created at 0, reset to 0, incremented by Next). -/
def IDGenNext (g : Nat) : Nat × Nat := (g + 1, g + 1)

/-- idgen.go Reset: the counter returns to 0. -/
def IDGenReset (_ : Nat) : Nat := 0

/-- The ids handed out by a run of successive Next calls from counter g. -/
def idSeq (g : Nat) : Nat → List Nat
  | 0 => []
  | n + 1 => (IDGenNext g).1 :: idSeq (IDGenNext g).2 n

/-- panel.go DefaultSizes: panel type tag to default (width, height). -/
def DefaultSizes : List (String × (Int × Int)) :=
  [("stat", (3, 4)), ("gauge", (3, 4)), ("timeseries", (12, 7)), ("bargauge", (6, 5)),
   ("heatmap", (12, 8)), ("histogram", (12, 7)), ("table", (24, 8)), ("piechart", (6, 6)),
   ("state-timeline", (12, 5)), ("status-history", (12, 5)), ("text", (24, 3)),
   ("logs", (24, 8)), ("row", (24, 1)), ("comparison", (12, 8))]

/-- Go read of DefaultSizes with the zero value on a miss. -/
def defaultSize (t : String) : Int × Int :=
  (tblLookup DefaultSizes t).getD (0, 0)

/-- panel.go PanelFactory.ds: the named datasource when set and resolvable,
else the configured default. -/
def dsJson (c : Config) (cfg : Obj) : Json :=
  let dsName := getString cfg "datasource" ""
  match (if dsName ≠ "" then (c.GetDatasource dsName).toOption else none) with
  | some ref => Json.obj [("type", Json.str ref.dtype), ("uid", Json.str ref.uid)]
  | none =>
    let d := c.GetDefaultDatasource
    Json.obj [("type", Json.str d.dtype), ("uid", Json.str d.uid)]

/-- panel.go PanelFactory.target: one query target object; a nil datasource
falls back to the configured default. -/
def targetJson (c : Config) (expr legend refID : String) (datasource : Option Json) : Json :=
  let ds := match datasource with
    | some d => d
    | none =>
      let d := c.GetDefaultDatasource
      Json.obj [("type", Json.str d.dtype), ("uid", Json.str d.uid)]
  Json.obj
    [("datasource", ds), ("editorMode", Json.str "code"),
     ("expr", Json.str (c.ResolveRef expr)),
     ("legendFormat", Json.str legend), ("range", Json.bool true),
     ("refId", Json.str refID)]

/-- The explicit-target-list loop of panel.go buildTargets: non-object entries
are skipped but still advance the positional index i that feeds the refId. -/
def listTargets (c : Config) (datasource : Json) (i : Nat) : List Json → List Json
  | [] => []
  | item :: rest =>
    match item with
    | Json.obj t =>
      let tDS := match (match lookup t "datasource" with
                        | some (Json.str dsName) => (c.GetDatasource dsName).toOption
                        | _ => none) with
                 | some ref => Json.obj [("type", Json.str ref.dtype), ("uid", Json.str ref.uid)]
                 | none => datasource
      targetJson c (getString t "expr" "") (getString t "legend" "\x7b\x7binstance\x7d\x7d")
          (String.mk [Char.ofNat (65 + i)]) (some tDS)
        :: listTargets c datasource (i + 1) rest
    | _ => listTargets c datasource (i + 1) rest

/-- panel.go buildTargets: the query shorthand (when present) becomes target
"A", then the explicit target list (when present) appends its entries. -/
def buildTargets (c : Config) (cfg : Obj) (datasource : Option Json) : List Json :=
  let ds := match datasource with
    | some d => d
    | none => dsJson c cfg
  let shorthand := match lookup cfg "query" with
    | some (Json.str q) =>
      [targetJson c q (getString cfg "legend" "\x7b\x7binstance\x7d\x7d") "A" (some ds)]
    | _ => []
  let fromList := match lookup cfg "targets" with
    | some (Json.arr items) => listTargets c ds 0 items
    | _ => []
  shorthand ++ fromList

/-- panel.go PanelFactory.thresholds: configured threshold steps when they
resolve to a non-empty list, else a single step whose color is the config
color (resolved), the caller's default, or the built-in green. -/
def thresholdSteps (c : Config) (cfg : Obj) (defaultColor : String) : List Json :=
  let c0 := if defaultColor = "" then "#73BF69" else defaultColor
  let fallbackColor := match lookup cfg "color" with
    | some (Json.str cs) => if cs ≠ "" then c.ResolveColor cs else c0
    | _ => c0
  let fallback := [Json.obj [("color", Json.str fallbackColor), ("value", Json.null)]]
  match lookup cfg "thresholds" with
  | some t =>
    (match c.ResolveThresholds t with
     | some resolved =>
       if resolved.length > 0 then
         resolved.map (fun s => Json.obj [("color", Json.str s.color), ("value", s.value)])
       else fallback
     | none => fallback)
  | none => fallback

/-- panel.go PanelFactory.overrides: pass-through array defaulting to empty. -/
def overridesOf (cfg : Obj) : List Json :=
  match lookup cfg "overrides" with
  | some (Json.arr o) => o
  | _ => []

/-- panel.go PanelFactory.valueMappings: pass-through array defaulting to empty. -/
def valueMappingsOf (cfg : Obj) : List Json :=
  match lookup cfg "value_mappings" with
  | some (Json.arr m) => m
  | _ => []

/-- panel.go PanelFactory.dataLinks: pass-through array defaulting to empty. -/
def dataLinksOf (cfg : Obj) : List Json :=
  match lookup cfg "data_links" with
  | some (Json.arr l) => l
  | _ => []

/-- panel.go PanelFactory.Row: the row pseudo-panel (nil nested panels become
the empty array; repeat fields only when a repeat variable is set). -/
def Panel.row (g : Nat) (title : String) (y : Int) (collapsed : Bool)
    (panels : List Json) (repeatVar : String) : Obj × Nat :=
  let base : Obj :=
    [("collapsed", Json.bool collapsed),
     ("gridPos", Json.obj
       [("h", Json.num 1), ("w", Json.num 24), ("x", Json.num 0), ("y", Json.num (y : ℚ))]),
     ("id", Json.num ((g : ℚ) + 1)),
     ("panels", Json.arr panels),
     ("title", Json.str title),
     ("type", Json.str "row")]
  (if repeatVar ≠ "" then
     base ++ [("repeat", Json.str repeatVar), ("repeatDirection", Json.str "h")]
   else base, g + 1)

/-- panel.go PanelFactory.Stat. -/
def Panel.stat (c : Config) (g : Nat) (cfg : Obj) (x y : Int) : Obj × Nat :=
  let dwh := defaultSize "stat"
  let w := getInt cfg "width" dwh.1
  let h := getInt cfg "height" dwh.2
  let steps0 := thresholdSteps c cfg ""
  let color := c.ResolveColor (getString cfg "color" "")
  let steps := if color ≠ "" ∧ steps0.length = 1 then
      [Json.obj [("color", Json.str color), ("value", Json.null)]]
    else steps0
  ([("datasource", dsJson c cfg),
    ("description", Json.str (getString cfg "description" "")),
    ("fieldConfig", Json.obj
      [("defaults", Json.obj
        [("color", Json.obj [("mode", Json.str "thresholds")]),
         ("mappings", Json.arr (valueMappingsOf cfg)),
         ("thresholds", Json.obj [("mode", Json.str "absolute"), ("steps", Json.arr steps)]),
         ("unit", Json.str (getString cfg "unit" "none")),
         ("links", Json.arr (dataLinksOf cfg))]),
       ("overrides", Json.arr (overridesOf cfg))]),
    ("gridPos", Json.obj
      [("h", Json.num (h : ℚ)), ("w", Json.num (w : ℚ)),
       ("x", Json.num (x : ℚ)), ("y", Json.num (y : ℚ))]),
    ("id", Json.num ((g : ℚ) + 1)),
    ("options", Json.obj
      [("colorMode", Json.str (getString cfg "color_mode" "background")),
       ("graphMode", Json.str (getString cfg "graph_mode" "none")),
       ("justifyMode", Json.str "center"),
       ("orientation", Json.str "auto"),
       ("reduceOptions", Json.obj
         [("calcs", Json.arr (getStringSlice cfg "calcs" ["lastNotNull"])),
          ("fields", Json.str ""), ("values", Json.bool false)]),
       ("showPercentChange", Json.bool false),
       ("textMode", Json.str (getString cfg "text_mode" "value_and_name")),
       ("wideLayout", Json.bool true)]),
    ("pluginVersion", Json.str "11.2.0"),
    ("targets", Json.arr (buildTargets c cfg none)),
    ("title", Json.str (getString cfg "title" "")),
    ("transparent", Json.bool (getBool cfg "transparent" true)),
    ("type", Json.str "stat")], g + 1)

/-- panel.go PanelFactory.Gauge. -/
def Panel.gauge (c : Config) (g : Nat) (cfg : Obj) (x y : Int) : Obj × Nat :=
  let dwh := defaultSize "gauge"
  let w := getInt cfg "width" dwh.1
  let h := getInt cfg "height" dwh.2
  ([("datasource", dsJson c cfg),
    ("description", Json.str (getString cfg "description" "")),
    ("fieldConfig", Json.obj
      [("defaults", Json.obj
        [("color", Json.obj [("mode", Json.str "thresholds")]),
         ("mappings", Json.arr (valueMappingsOf cfg)),
         ("max", getNumber cfg "max" 100),
         ("min", getNumber cfg "min" 0),
         ("thresholds", Json.obj
           [("mode", Json.str "absolute"), ("steps", Json.arr (thresholdSteps c cfg ""))]),
         ("unit", Json.str (getString cfg "unit" "percent")),
         ("links", Json.arr (dataLinksOf cfg))]),
       ("overrides", Json.arr (overridesOf cfg))]),
    ("gridPos", Json.obj
      [("h", Json.num (h : ℚ)), ("w", Json.num (w : ℚ)),
       ("x", Json.num (x : ℚ)), ("y", Json.num (y : ℚ))]),
    ("id", Json.num ((g : ℚ) + 1)),
    ("options", Json.obj
      [("minVizHeight", Json.num 75),
       ("minVizWidth", Json.num 75),
       ("orientation", Json.str "auto"),
       ("reduceOptions", Json.obj
         [("calcs", Json.arr (getStringSlice cfg "calcs" ["lastNotNull"])),
          ("fields", Json.str ""), ("values", Json.bool false)]),
       ("showThresholdLabels", Json.bool (getBool cfg "show_threshold_labels" false)),
       ("showThresholdMarkers", Json.bool (getBool cfg "show_threshold_markers" true)),
       ("sizing", Json.str "auto")]),
    ("pluginVersion", Json.str "11.2.0"),
    ("targets", Json.arr (buildTargets c cfg none)),
    ("title", Json.str (getString cfg "title" "")),
    ("transparent", Json.bool (getBool cfg "transparent" true)),
    ("type", Json.str "gauge")], g + 1)

/-- panel.go PanelFactory.Timeseries. -/
def Panel.timeseries (c : Config) (g : Nat) (cfg : Obj) (x y : Int) : Obj × Nat :=
  let dwh := defaultSize "timeseries"
  let w := getInt cfg "width" dwh.1
  let h := getInt cfg "height" dwh.2
  let fill := getInt cfg "fill_opacity" 8
  let line := getInt cfg "line_width" 1
  let stack := getString cfg "stack" "none"
  let draw := getString cfg "draw_style" "line"
  let interpolation := getString cfg "line_interpolation" "smooth"
  ([("datasource", dsJson c cfg),
    ("description", Json.str (getString cfg "description" "")),
    ("fieldConfig", Json.obj
      [("defaults", Json.obj
        [("color", Json.obj
          [("mode", Json.str (getString cfg "color_mode" "palette-classic-by-name"))]),
         ("custom", Json.obj
           [("axisBorderShow", Json.bool false),
            ("axisCenteredZero", Json.bool false),
            ("axisColorMode", Json.str "text"),
            ("axisLabel", Json.str (getString cfg "axis_label" "")),
            ("axisPlacement", Json.str "auto"),
            ("barAlignment", Json.num 0),
            ("barWidthFactor", Json.num (6 / 10)),
            ("drawStyle", Json.str draw),
            ("fillOpacity", Json.num (fill : ℚ)),
            ("gradientMode", Json.str "scheme"),
            ("hideFrom", Json.obj
              [("legend", Json.bool false), ("tooltip", Json.bool false),
               ("viz", Json.bool false)]),
            ("insertNulls", Json.bool false),
            ("lineInterpolation", Json.str interpolation),
            ("lineWidth", Json.num (line : ℚ)),
            ("pointSize", Json.num 5),
            ("scaleDistribution", Json.obj [("type", Json.str "linear")]),
            ("showPoints", Json.str "never"),
            ("spanNulls", Json.bool false),
            ("stacking", Json.obj [("group", Json.str "A"), ("mode", Json.str stack)]),
            ("thresholdsStyle", Json.obj [("mode", Json.str "off")])]),
         ("mappings", Json.arr (valueMappingsOf cfg)),
         ("thresholds", Json.obj
           [("mode", Json.str "absolute"), ("steps", Json.arr (thresholdSteps c cfg ""))]),
         ("unit", Json.str (getString cfg "unit" "short")),
         ("links", Json.arr (dataLinksOf cfg))]),
       ("overrides", Json.arr (overridesOf cfg))]),
    ("gridPos", Json.obj
      [("h", Json.num (h : ℚ)), ("w", Json.num (w : ℚ)),
       ("x", Json.num (x : ℚ)), ("y", Json.num (y : ℚ))]),
    ("id", Json.num ((g : ℚ) + 1)),
    ("options", Json.obj
      [("legend", Json.obj
        [("calcs", Json.arr (getStringSlice cfg "legend_calcs" [])),
         ("displayMode", Json.str (getString cfg "legend_mode" "list")),
         ("placement", Json.str (getString cfg "legend_placement" "bottom")),
         ("showLegend", Json.bool (getBool cfg "show_legend" true))]),
       ("tooltip", Json.obj [("mode", Json.str "multi"), ("sort", Json.str "desc")])]),
    ("pluginVersion", Json.str "11.2.0"),
    ("targets", Json.arr (buildTargets c cfg none)),
    ("title", Json.str (getString cfg "title" "")),
    ("transparent", Json.bool (getBool cfg "transparent" true)),
    ("type", Json.str "timeseries")], g + 1)

/-- panel.go PanelFactory.Bargauge. -/
def Panel.bargauge (c : Config) (g : Nat) (cfg : Obj) (x y : Int) : Obj × Nat :=
  let dwh := defaultSize "bargauge"
  let w := getInt cfg "width" dwh.1
  let h := getInt cfg "height" dwh.2
  ([("datasource", dsJson c cfg),
    ("description", Json.str (getString cfg "description" "")),
    ("fieldConfig", Json.obj
      [("defaults", Json.obj
        [("color", Json.obj [("mode", Json.str "thresholds")]),
         ("mappings", Json.arr (valueMappingsOf cfg)),
         ("max", getNumber cfg "max" 100),
         ("min", getNumber cfg "min" 0),
         ("thresholds", Json.obj
           [("mode", Json.str "absolute"), ("steps", Json.arr (thresholdSteps c cfg ""))]),
         ("unit", Json.str (getString cfg "unit" "percent")),
         ("links", Json.arr (dataLinksOf cfg))]),
       ("overrides", Json.arr (overridesOf cfg))]),
    ("gridPos", Json.obj
      [("h", Json.num (h : ℚ)), ("w", Json.num (w : ℚ)),
       ("x", Json.num (x : ℚ)), ("y", Json.num (y : ℚ))]),
    ("id", Json.num ((g : ℚ) + 1)),
    ("options", Json.obj
      [("displayMode", Json.str (getString cfg "display_mode" "gradient")),
       ("maxVizHeight", Json.num 300),
       ("minVizHeight", Json.num 16),
       ("minVizWidth", Json.num 8),
       ("namePlacement", Json.str "auto"),
       ("orientation", Json.str (getString cfg "orientation" "horizontal")),
       ("reduceOptions", Json.obj
         [("calcs", Json.arr (getStringSlice cfg "calcs" ["lastNotNull"])),
          ("fields", Json.str ""), ("values", Json.bool false)]),
       ("showUnfilled", Json.bool true),
       ("sizing", Json.str "auto"),
       ("valueMode", Json.str "color")]),
    ("pluginVersion", Json.str "11.2.0"),
    ("targets", Json.arr (buildTargets c cfg none)),
    ("title", Json.str (getString cfg "title" "")),
    ("transparent", Json.bool (getBool cfg "transparent" true)),
    ("type", Json.str "bargauge")], g + 1)

/-- panel.go PanelFactory.Heatmap. -/
def Panel.heatmap (c : Config) (g : Nat) (cfg : Obj) (x y : Int) : Obj × Nat :=
  let dwh := defaultSize "heatmap"
  let w := getInt cfg "width" dwh.1
  let h := getInt cfg "height" dwh.2
  let scheme := getString cfg "color_scheme" "Spectral"
  ([("datasource", dsJson c cfg),
    ("description", Json.str (getString cfg "description" "")),
    ("fieldConfig", Json.obj
      [("defaults", Json.obj
        [("color", Json.obj [("mode", Json.str "continuous-GrYlRd")]),
         ("custom", Json.obj
           [("fillOpacity", Json.num 80),
            ("hideFrom", Json.obj
              [("legend", Json.bool false), ("tooltip", Json.bool false),
               ("viz", Json.bool false)]),
            ("lineWidth", Json.num 1)]),
         ("mappings", Json.arr []),
         ("thresholds", Json.obj
           [("mode", Json.str "absolute"),
            ("steps", Json.arr [Json.obj [("color", Json.str "green"), ("value", Json.null)]])]),
         ("unit", Json.str (getString cfg "unit" "short"))]),
       ("overrides", Json.arr (overridesOf cfg))]),
    ("gridPos", Json.obj
      [("h", Json.num (h : ℚ)), ("w", Json.num (w : ℚ)),
       ("x", Json.num (x : ℚ)), ("y", Json.num (y : ℚ))]),
    ("id", Json.num ((g : ℚ) + 1)),
    ("options", Json.obj
      [("calculate", Json.bool (getBool cfg "calculate" false)),
       ("cellGap", Json.num ((getInt cfg "cell_gap" 2 : Int) : ℚ)),
       ("cellValues", Json.obj [("decimals", Json.num ((getInt cfg "decimals" 0 : Int) : ℚ))]),
       ("color", Json.obj
         [("exponent", Json.num (1 / 2)),
          ("fill", Json.str "dark-blue"),
          ("min", Json.num 0),
          ("mode", Json.str "scheme"),
          ("reverse", Json.bool false),
          ("scale", Json.str (getString cfg "color_scale" "exponential")),
          ("scheme", Json.str scheme),
          ("steps", Json.num 128)]),
       ("exemplars", Json.obj [("color", Json.str "rgba(153,204,255,0.7)")]),
       ("filterValues", Json.obj [("le", Json.num (1 / 1000000000))]),
       ("legend", Json.obj [("show", Json.bool true)]),
       ("rowsFrame", Json.obj [("layout", Json.str "auto")]),
       ("tooltip", Json.obj [("show", Json.bool true), ("yHistogram", Json.bool false)]),
       ("yAxis", Json.obj
         [("axisPlacement", Json.str "left"),
          ("reverse", Json.bool false),
          ("unit", Json.str (getString cfg "y_unit" "short"))])]),
    ("pluginVersion", Json.str "11.2.0"),
    ("targets", Json.arr (buildTargets c cfg none)),
    ("title", Json.str (getString cfg "title" "")),
    ("transparent", Json.bool (getBool cfg "transparent" true)),
    ("type", Json.str "heatmap")], g + 1)

/-- panel.go PanelFactory.Histogram. -/
def Panel.histogram (c : Config) (g : Nat) (cfg : Obj) (x y : Int) : Obj × Nat :=
  let dwh := defaultSize "histogram"
  let w := getInt cfg "width" dwh.1
  let h := getInt cfg "height" dwh.2
  ([("datasource", dsJson c cfg),
    ("description", Json.str (getString cfg "description" "")),
    ("fieldConfig", Json.obj
      [("defaults", Json.obj
        [("color", Json.obj
          [("mode", Json.str (getString cfg "color_mode" "palette-classic-by-name"))]),
         ("custom", Json.obj
           [("fillOpacity", Json.num ((getInt cfg "fill_opacity" 80 : Int) : ℚ)),
            ("gradientMode", Json.str "none"),
            ("hideFrom", Json.obj
              [("legend", Json.bool false), ("tooltip", Json.bool false),
               ("viz", Json.bool false)]),
            ("lineWidth", Json.num 1)]),
         ("mappings", Json.arr []),
         ("thresholds", Json.obj
           [("mode", Json.str "absolute"), ("steps", Json.arr (thresholdSteps c cfg ""))]),
         ("unit", Json.str (getString cfg "unit" "short"))]),
       ("overrides", Json.arr (overridesOf cfg))]),
    ("gridPos", Json.obj
      [("h", Json.num (h : ℚ)), ("w", Json.num (w : ℚ)),
       ("x", Json.num (x : ℚ)), ("y", Json.num (y : ℚ))]),
    ("id", Json.num ((g : ℚ) + 1)),
    ("options", Json.obj
      [("bucketCount", Json.num ((getInt cfg "bucket_count" 30 : Int) : ℚ)),
       ("combine", Json.bool (getBool cfg "combine" false)),
       ("fillOpacity", Json.num ((getInt cfg "fill_opacity" 80 : Int) : ℚ)),
       ("gradientMode", Json.str "none"),
       ("legend", Json.obj
         [("calcs", Json.arr []), ("displayMode", Json.str "list"),
          ("placement", Json.str "bottom"), ("showLegend", Json.bool true)]),
       ("tooltip", Json.obj [("mode", Json.str "multi"), ("sort", Json.str "desc")])]),
    ("pluginVersion", Json.str "11.2.0"),
    ("targets", Json.arr (buildTargets c cfg none)),
    ("title", Json.str (getString cfg "title" "")),
    ("transparent", Json.bool (getBool cfg "transparent" true)),
    ("type", Json.str "histogram")], g + 1)

/-- panel.go PanelFactory.Table. -/
def Panel.table (c : Config) (g : Nat) (cfg : Obj) (x y : Int) : Obj × Nat :=
  let dwh := defaultSize "table"
  let w := getInt cfg "width" dwh.1
  let h := getInt cfg "height" dwh.2
  let sortBy := match lookup cfg "sort_by" with
    | some (Json.arr s) => s
    | _ => []
  let transformations := match lookup cfg "transformations" with
    | some (Json.arr t) => t
    | _ => []
  ([("datasource", dsJson c cfg),
    ("description", Json.str (getString cfg "description" "")),
    ("fieldConfig", Json.obj
      [("defaults", Json.obj
        [("color", Json.obj [("mode", Json.str "thresholds")]),
         ("custom", Json.obj
           [("align", Json.str "auto"),
            ("cellOptions", Json.obj [("type", Json.str "auto")]),
            ("filterable", Json.bool (getBool cfg "filterable" true)),
            ("inspect", Json.bool true)]),
         ("mappings", Json.arr (valueMappingsOf cfg)),
         ("thresholds", Json.obj
           [("mode", Json.str "absolute"), ("steps", Json.arr (thresholdSteps c cfg ""))]),
         ("unit", Json.str (getString cfg "unit" "short")),
         ("links", Json.arr (dataLinksOf cfg))]),
       ("overrides", Json.arr (overridesOf cfg))]),
    ("gridPos", Json.obj
      [("h", Json.num (h : ℚ)), ("w", Json.num (w : ℚ)),
       ("x", Json.num (x : ℚ)), ("y", Json.num (y : ℚ))]),
    ("id", Json.num ((g : ℚ) + 1)),
    ("options", Json.obj
      [("cellHeight", Json.str "sm"),
       ("footer", Json.obj
         [("countRows", Json.bool false),
          ("enablePagination", Json.bool (getBool cfg "pagination" false)),
          ("fields", Json.str ""),
          ("reducer", Json.arr [Json.str "sum"]),
          ("show", Json.bool false)]),
       ("showHeader", Json.bool true),
       ("sortBy", Json.arr sortBy)]),
    ("pluginVersion", Json.str "11.2.0"),
    ("targets", Json.arr (buildTargets c cfg none)),
    ("title", Json.str (getString cfg "title" "")),
    ("transformations", Json.arr transformations),
    ("transparent", Json.bool (getBool cfg "transparent" true)),
    ("type", Json.str "table")], g + 1)

/-- panel.go PanelFactory.Piechart. -/
def Panel.piechart (c : Config) (g : Nat) (cfg : Obj) (x y : Int) : Obj × Nat :=
  let dwh := defaultSize "piechart"
  let w := getInt cfg "width" dwh.1
  let h := getInt cfg "height" dwh.2
  ([("datasource", dsJson c cfg),
    ("description", Json.str (getString cfg "description" "")),
    ("fieldConfig", Json.obj
      [("defaults", Json.obj
        [("color", Json.obj
          [("mode", Json.str (getString cfg "color_mode" "palette-classic-by-name"))]),
         ("mappings", Json.arr (valueMappingsOf cfg)),
         ("thresholds", Json.obj
           [("mode", Json.str "absolute"), ("steps", Json.arr (thresholdSteps c cfg ""))]),
         ("unit", Json.str (getString cfg "unit" "short"))]),
       ("overrides", Json.arr (overridesOf cfg))]),
    ("gridPos", Json.obj
      [("h", Json.num (h : ℚ)), ("w", Json.num (w : ℚ)),
       ("x", Json.num (x : ℚ)), ("y", Json.num (y : ℚ))]),
    ("id", Json.num ((g : ℚ) + 1)),
    ("options", Json.obj
      [("displayLabels", Json.arr (getStringSlice cfg "display_labels" ["percent"])),
       ("legend", Json.obj
         [("calcs", Json.arr (getStringSlice cfg "legend_calcs" [])),
          ("displayMode", Json.str (getString cfg "legend_mode" "list")),
          ("placement", Json.str (getString cfg "legend_placement" "right")),
          ("showLegend", Json.bool true)]),
       ("pieType", Json.str (getString cfg "pie_type" "donut")),
       ("reduceOptions", Json.obj
         [("calcs", Json.arr (getStringSlice cfg "calcs" ["lastNotNull"])),
          ("fields", Json.str ""), ("values", Json.bool false)]),
       ("tooltip", Json.obj [("mode", Json.str "multi"), ("sort", Json.str "desc")])]),
    ("pluginVersion", Json.str "11.2.0"),
    ("targets", Json.arr (buildTargets c cfg none)),
    ("title", Json.str (getString cfg "title" "")),
    ("transparent", Json.bool (getBool cfg "transparent" true)),
    ("type", Json.str "piechart")], g + 1)

/-- panel.go PanelFactory.StateTimeline. -/
def Panel.stateTimeline (c : Config) (g : Nat) (cfg : Obj) (x y : Int) : Obj × Nat :=
  let dwh := defaultSize "state-timeline"
  let w := getInt cfg "width" dwh.1
  let h := getInt cfg "height" dwh.2
  ([("datasource", dsJson c cfg),
    ("description", Json.str (getString cfg "description" "")),
    ("fieldConfig", Json.obj
      [("defaults", Json.obj
        [("color", Json.obj [("mode", Json.str "thresholds")]),
         ("custom", Json.obj
           [("fillOpacity", Json.num ((getInt cfg "fill_opacity" 70 : Int) : ℚ)),
            ("hideFrom", Json.obj
              [("legend", Json.bool false), ("tooltip", Json.bool false),
               ("viz", Json.bool false)]),
            ("lineWidth", Json.num 0)]),
         ("mappings", Json.arr (valueMappingsOf cfg)),
         ("thresholds", Json.obj
           [("mode", Json.str "absolute"), ("steps", Json.arr (thresholdSteps c cfg ""))]),
         ("unit", Json.str (getString cfg "unit" "short"))]),
       ("overrides", Json.arr (overridesOf cfg))]),
    ("gridPos", Json.obj
      [("h", Json.num (h : ℚ)), ("w", Json.num (w : ℚ)),
       ("x", Json.num (x : ℚ)), ("y", Json.num (y : ℚ))]),
    ("id", Json.num ((g : ℚ) + 1)),
    ("options", Json.obj
      [("alignValue", Json.str "center"),
       ("legend", Json.obj
         [("displayMode", Json.str "list"), ("placement", Json.str "bottom"),
          ("showLegend", Json.bool true)]),
       ("mergeValues", Json.bool (getBool cfg "merge_values" true)),
       ("rowHeight", Json.num (getFloat cfg "row_height" (9 / 10))),
       ("showValue", Json.str (getString cfg "show_value" "auto")),
       ("tooltip", Json.obj [("mode", Json.str "multi"), ("sort", Json.str "desc")])]),
    ("pluginVersion", Json.str "11.2.0"),
    ("targets", Json.arr (buildTargets c cfg none)),
    ("title", Json.str (getString cfg "title" "")),
    ("transparent", Json.bool (getBool cfg "transparent" true)),
    ("type", Json.str "state-timeline")], g + 1)

/-- panel.go PanelFactory.StatusHistory. -/
def Panel.statusHistory (c : Config) (g : Nat) (cfg : Obj) (x y : Int) : Obj × Nat :=
  let dwh := defaultSize "status-history"
  let w := getInt cfg "width" dwh.1
  let h := getInt cfg "height" dwh.2
  ([("datasource", dsJson c cfg),
    ("description", Json.str (getString cfg "description" "")),
    ("fieldConfig", Json.obj
      [("defaults", Json.obj
        [("color", Json.obj [("mode", Json.str "thresholds")]),
         ("custom", Json.obj
           [("fillOpacity", Json.num ((getInt cfg "fill_opacity" 70 : Int) : ℚ)),
            ("hideFrom", Json.obj
              [("legend", Json.bool false), ("tooltip", Json.bool false),
               ("viz", Json.bool false)]),
            ("lineWidth", Json.num 1)]),
         ("mappings", Json.arr (valueMappingsOf cfg)),
         ("thresholds", Json.obj
           [("mode", Json.str "absolute"), ("steps", Json.arr (thresholdSteps c cfg ""))]),
         ("unit", Json.str (getString cfg "unit" "short"))]),
       ("overrides", Json.arr (overridesOf cfg))]),
    ("gridPos", Json.obj
      [("h", Json.num (h : ℚ)), ("w", Json.num (w : ℚ)),
       ("x", Json.num (x : ℚ)), ("y", Json.num (y : ℚ))]),
    ("id", Json.num ((g : ℚ) + 1)),
    ("options", Json.obj
      [("colWidth", Json.num (9 / 10)),
       ("legend", Json.obj
         [("displayMode", Json.str "list"), ("placement", Json.str "bottom"),
          ("showLegend", Json.bool true)]),
       ("rowHeight", Json.num (getFloat cfg "row_height" (9 / 10))),
       ("showValue", Json.str (getString cfg "show_value" "auto")),
       ("tooltip", Json.obj [("mode", Json.str "multi"), ("sort", Json.str "desc")])]),
    ("pluginVersion", Json.str "11.2.0"),
    ("targets", Json.arr (buildTargets c cfg none)),
    ("title", Json.str (getString cfg "title" "")),
    ("transparent", Json.bool (getBool cfg "transparent" true)),
    ("type", Json.str "status-history")], g + 1)

/-- panel.go PanelFactory.Text. -/
def Panel.text (c : Config) (g : Nat) (cfg : Obj) (x y : Int) : Obj × Nat :=
  let dwh := defaultSize "text"
  let w := getInt cfg "width" dwh.1
  let h := getInt cfg "height" dwh.2
  ([("datasource", dsJson c cfg),
    ("description", Json.str (getString cfg "description" "")),
    ("gridPos", Json.obj
      [("h", Json.num (h : ℚ)), ("w", Json.num (w : ℚ)),
       ("x", Json.num (x : ℚ)), ("y", Json.num (y : ℚ))]),
    ("id", Json.num ((g : ℚ) + 1)),
    ("options", Json.obj
      [("code", Json.obj
        [("language", Json.str "plaintext"),
         ("showLineNumbers", Json.bool false),
         ("showMiniMap", Json.bool false)]),
       ("content", Json.str (getString cfg "content" "")),
       ("mode", Json.str (getString cfg "mode" "markdown"))]),
    ("pluginVersion", Json.str "11.2.0"),
    ("title", Json.str (getString cfg "title" "")),
    ("transparent", Json.bool (getBool cfg "transparent" true)),
    ("type", Json.str "text")], g + 1)

/-- panel.go PanelFactory.Logs. -/
def Panel.logs (c : Config) (g : Nat) (cfg : Obj) (x y : Int) : Obj × Nat :=
  let dwh := defaultSize "logs"
  let w := getInt cfg "width" dwh.1
  let h := getInt cfg "height" dwh.2
  ([("datasource", dsJson c cfg),
    ("description", Json.str (getString cfg "description" "")),
    ("gridPos", Json.obj
      [("h", Json.num (h : ℚ)), ("w", Json.num (w : ℚ)),
       ("x", Json.num (x : ℚ)), ("y", Json.num (y : ℚ))]),
    ("id", Json.num ((g : ℚ) + 1)),
    ("options", Json.obj
      [("dedupStrategy", Json.str (getString cfg "dedup" "none")),
       ("enableLogDetails", Json.bool true),
       ("prettifyLogMessage", Json.bool (getBool cfg "prettify" false)),
       ("showCommonLabels", Json.bool (getBool cfg "show_common_labels" false)),
       ("showLabels", Json.bool (getBool cfg "show_labels" false)),
       ("showTime", Json.bool (getBool cfg "show_time" true)),
       ("sortOrder", Json.str (getString cfg "sort_order" "Descending")),
       ("wrapLogMessage", Json.bool (getBool cfg "wrap" true))]),
    ("pluginVersion", Json.str "11.2.0"),
    ("targets", Json.arr (buildTargets c cfg none)),
    ("title", Json.str (getString cfg "title" "")),
    ("transparent", Json.bool (getBool cfg "transparent" true)),
    ("type", Json.str "logs")], g + 1)

/-- The per-datasource target loop inside panel.go PanelFactory.Comparison:
stops with the error of the first unresolvable datasource name; otherwise one
target per datasource with a positional refId. -/
def comparisonTargets (c : Config) (metric metricType : String)
    (legendOpt : Option String) (i : Nat) : List String → Except String (List Json)
  | [] => Except.ok []
  | dsName :: rest =>
    match c.GetDatasource dsName with
    | Except.error e => Except.error e
    | Except.ok ds =>
      let expr := if metricType = "counter" then "rate(" ++ metric ++ "[5m])" else metric
      let legend0 := legendOpt.getD (dsName ++ ": \x7b\x7binstance\x7d\x7d")
      let legend := if strContains legend0 dsName then legend0
        else dsName ++ ": " ++ legend0
      match comparisonTargets c metric metricType legendOpt (i + 1) rest with
      | Except.error e => Except.error e
      | Except.ok ts =>
        Except.ok (Json.obj
          [("datasource", Json.obj
            [("type", Json.str ds.dtype), ("uid", Json.str ds.uid)]),
           ("editorMode", Json.str "code"),
           ("expr", Json.str (c.ResolveRef expr)),
           ("legendFormat", Json.str legend),
           ("range", Json.bool true),
           ("refId", Json.str (String.mk [Char.ofNat (65 + i)]))] :: ts)

/-- The success object of panel.go PanelFactory.Comparison, hoisted out of
the control flow so proofs can treat it atomically. -/
def comparisonPanelObj (g : Nat) (cfg : Obj) (x y : Int)
    (metric : String) (targets : List Json) : Obj :=
  [("datasource", Json.obj
      [("type", Json.str "datasource"), ("uid", Json.str "-- Mixed --")]),
   ("description",
     Json.str (getString cfg "description" ("comparison: " ++ metric))),
   ("fieldConfig", Json.obj
     [("defaults", Json.obj
       [("color", Json.obj [("mode", Json.str "palette-classic-by-name")]),
        ("custom", Json.obj
          [("axisBorderShow", Json.bool false),
           ("axisCenteredZero", Json.bool false),
           ("axisColorMode", Json.str "text"),
           ("axisLabel", Json.str ""),
           ("axisPlacement", Json.str "auto"),
           ("barAlignment", Json.num 0),
           ("barWidthFactor", Json.num (6 / 10)),
           ("drawStyle", Json.str "line"),
           ("fillOpacity", Json.num 8),
           ("gradientMode", Json.str "scheme"),
           ("hideFrom", Json.obj
             [("legend", Json.bool false), ("tooltip", Json.bool false),
              ("viz", Json.bool false)]),
           ("insertNulls", Json.bool false),
           ("lineInterpolation", Json.str "smooth"),
           ("lineWidth", Json.num 1),
           ("pointSize", Json.num 5),
           ("scaleDistribution", Json.obj [("type", Json.str "linear")]),
           ("showPoints", Json.str "never"),
           ("spanNulls", Json.bool false),
           ("stacking", Json.obj
             [("group", Json.str "A"), ("mode", Json.str "none")]),
           ("thresholdsStyle", Json.obj [("mode", Json.str "off")])]),
        ("mappings", Json.arr []),
        ("thresholds", Json.obj
          [("mode", Json.str "absolute"),
           ("steps", Json.arr
             [Json.obj [("color", Json.str "#73BF69"), ("value", Json.null)]])]),
        ("unit", Json.str (getString cfg "unit" "short"))]),
      ("overrides", Json.arr [])]),
   ("gridPos", Json.obj
     [("h", Json.num ((getInt cfg "height" (defaultSize "comparison").2 : Int) : ℚ)),
      ("w", Json.num ((getInt cfg "width" (defaultSize "comparison").1 : Int) : ℚ)),
      ("x", Json.num (x : ℚ)), ("y", Json.num (y : ℚ))]),
   ("id", Json.num ((g : ℚ) + 1)),
   ("options", Json.obj
     [("legend", Json.obj
       [("calcs", Json.arr []), ("displayMode", Json.str "list"),
        ("placement", Json.str "bottom"), ("showLegend", Json.bool true)]),
      ("tooltip", Json.obj [("mode", Json.str "multi"), ("sort", Json.str "desc")])]),
   ("pluginVersion", Json.str "11.2.0"),
   ("targets", Json.arr targets),
   ("title", Json.str (getString cfg "title" (metric ++ " comparison"))),
   ("transparent", Json.bool (getBool cfg "transparent" true)),
   ("type", Json.str "timeseries")]

/-- panel.go PanelFactory.Comparison: a mixed-datasource timeseries panel over
the same metric across at least two named datasources. -/
def Panel.comparison (c : Config) (g : Nat) (cfg : Obj) (x y : Int) :
    Except String (Obj × Nat) :=
  if (getStringSliceAsStrings cfg "datasources").length < 2 then
    Except.error "comparison panel requires at least 2 datasources"
  else
    match comparisonTargets c (getString cfg "metric" "up")
        (getString cfg "metric_type" "gauge")
        (match lookup cfg "legend" with
         | some (Json.str s) => some s
         | _ => none) 0 (getStringSliceAsStrings cfg "datasources") with
    | Except.error e => Except.error e
    | Except.ok targets =>
      Except.ok (comparisonPanelObj g cfg x y (getString cfg "metric" "up") targets, g + 1)

/-- panel.go PanelFactory.FromConfig: the single dispatch on the type tag;
an unrecognized tag is a hard error. -/
def fromConfigDispatch (c : Config) (g : Nat) (cfg : Obj) (x y : Int)
    (ptype : String) : Except String (Obj × Nat) :=
  match ptype with
  | "stat" => Except.ok (Panel.stat c g cfg x y)
  | "gauge" => Except.ok (Panel.gauge c g cfg x y)
  | "timeseries" => Except.ok (Panel.timeseries c g cfg x y)
  | "bargauge" => Except.ok (Panel.bargauge c g cfg x y)
  | "heatmap" => Except.ok (Panel.heatmap c g cfg x y)
  | "histogram" => Except.ok (Panel.histogram c g cfg x y)
  | "table" => Except.ok (Panel.table c g cfg x y)
  | "piechart" => Except.ok (Panel.piechart c g cfg x y)
  | "state-timeline" => Except.ok (Panel.stateTimeline c g cfg x y)
  | "status-history" => Except.ok (Panel.statusHistory c g cfg x y)
  | "text" => Except.ok (Panel.text c g cfg x y)
  | "logs" => Except.ok (Panel.logs c g cfg x y)
  | "comparison" => Panel.comparison c g cfg x y
  | _ => Except.error ("unknown panel type: " ++ ptype)

/-- panel.go PanelFactory.FromConfig: read the type tag, then dispatch. -/
def FromConfig (c : Config) (g : Nat) (cfg : Obj) (x y : Int) :
    Except String (Obj × Nat) :=
  fromConfigDispatch c g cfg x y (getString cfg "type" "")

/-- Go map assignment `m[k] = v`: replace the binding in place, or add it. -/
def setKey (m : Obj) (k : String) (v : Json) : Obj :=
  match m with
  | [] => [(k, v)]
  | (k', v') :: rest => if k' = k then (k, v) :: rest else (k', v') :: setKey rest k v

/-- Go `delete(m, k)`. -/
def delKey (m : Obj) (k : String) : Obj :=
  m.filter (fun kv => kv.1 ≠ k)

/-- dashboard.go DashboardBuilder.BuildVariable: the variable dict for a named
definition, with the per-kind rewrites of the query field. -/
def BuildVariable (c : Config) (name : String) : Except String Obj :=
  match tblLookup c.variableDefs name with
  | none => Except.error ("variable '" ++ name ++ "' not defined in config")
  | some v =>
    let vtype := if v.vtype = "" then "query" else v.vtype
    let query := c.ResolveRef v.query
    let label := if v.label = "" then name else v.label
    let refresh := if v.refresh = 0 then 2 else v.refresh
    let sortv := if v.sort = 0 then 1 else v.sort
    let ds0 := c.GetDefaultDatasource
    let ds := if v.datasource ≠ "" then
        match (c.GetDatasource v.datasource).toOption with
        | some ref => ref
        | none => ds0
      else ds0
    let current := if v.includeAll then
        Json.obj [("selected", Json.bool true), ("text", Json.str "All"),
                  ("value", Json.str "$__all")]
      else
        Json.obj [("selected", Json.bool true), ("text", Json.str v.defaultText),
                  ("value", Json.str v.defaultValue)]
    let varDef : Obj :=
      [("current", current),
       ("datasource", Json.obj [("type", Json.str ds.dtype), ("uid", Json.str ds.uid)]),
       ("definition", Json.str query),
       ("hide", Json.num (v.hide : ℚ)),
       ("includeAll", Json.bool v.includeAll),
       ("label", Json.str label),
       ("multi", Json.bool v.multi),
       ("name", Json.str name),
       ("options", Json.arr []),
       ("query", Json.obj
         [("query", Json.str query), ("refId", Json.str "StandardVariableQuery")]),
       ("refresh", Json.num (refresh : ℚ)),
       ("regex", Json.str v.regex),
       ("skipUrlSync", Json.bool false),
       ("sort", Json.num (sortv : ℚ)),
       ("type", Json.str vtype)]
    let varDef := if v.allValue ≠ "" then setKey varDef "allValue" (Json.str v.allValue)
      else varDef
    let varDef :=
      if vtype = "custom" then
        delKey (delKey (setKey varDef "query" (Json.str v.values)) "datasource") "definition"
      else if vtype = "datasource" then
        let dsType := if v.dsType = "" then "prometheus" else v.dsType
        delKey (delKey (setKey varDef "query" (Json.str dsType)) "definition") "datasource"
      else if vtype = "interval" then
        let vals := if v.values = "" then "1m,5m,15m,30m,1h,6h,12h,1d" else v.values
        let vd := setKey varDef "query" (Json.str vals)
        let vd := setKey vd "auto" (Json.bool v.auto)
        let autoCount := if v.autoCount = 0 then 10 else v.autoCount
        let vd := setKey vd "auto_count" (Json.num (autoCount : ℚ))
        let autoMin := if v.autoMin = "" then "10s" else v.autoMin
        let vd := setKey vd "auto_min" (Json.str autoMin)
        delKey (delKey vd "datasource") "definition"
      else varDef
    Except.ok varDef

/-- Field read on a JSON value known to be an object. -/
def getField (j : Json) (k : String) : Option Json :=
  match j with
  | Json.obj m => lookup m k
  | _ => none

/-- The target list of an emitted panel. -/
def panelTargets (p : Obj) : List Json :=
  match lookup p "targets" with
  | some (Json.arr ts) => ts
  | _ => []

/-- The grid-position width of an emitted panel. -/
def panelW (p : Obj) : Option Json :=
  (lookup p "gridPos").bind (fun gp => getField gp "w")

/-- The grid-position height of an emitted panel. -/
def panelH (p : Obj) : Option Json :=
  (lookup p "gridPos").bind (fun gp => getField gp "h")

/-- A claim-side restatement of the Place algorithm, written from the spec's
wording with the grid width fixed at 24, for the refinement theorem of C4. -/
def placeSpec (w h : Int) (s : LayoutEngine) : (Int × Int) × LayoutEngine :=
  let s1 := if s.cursorX + w > 24 then
      { s with cursorY := s.cursorY + s.rowHeight, cursorX := 0, rowHeight := 0 }
    else s
  ((s1.cursorX, s1.cursorY),
   { s1 with cursorX := s1.cursorX + w, rowHeight := max s1.rowHeight h })

/-- Run a sequence of Place calls, pairing each requested size with the
returned coordinates. -/
def placeAll (le : LayoutEngine) : List (Int × Int) → List ((Int × Int) × (Int × Int))
  | [] => []
  | wh :: rest =>
    ((wh, (le.Place wh.1 wh.2).1)) :: placeAll (le.Place wh.1 wh.2).2 rest

/-- An all-zero VariableDef, the base for test fixtures. -/
def defVar : VariableDef :=
  { vtype := "", datasource := "", query := "", multi := false, includeAll := false,
    refresh := 0, sort := 0, label := "", hide := 0, regex := "", allValue := "",
    values := "", dsType := "", auto := false, autoCount := 0, autoMin := "",
    defaultText := "", defaultValue := "" }

/-- Test fixture mirroring the repository's panel_test.go loadTestConfig, with
the interval variable of dashboard_test.go added. -/
def testCfg : Config :=
  { datasources :=
      [("primary", { dtype := "prometheus", uid := "prometheus", url := "", isDefault := true }),
       ("secondary", { dtype := "prometheus", uid := "thanos", url := "", isDefault := false })],
    palettes := [("grafana", [("green", "#73BF69"), ("red", "#F2495C"), ("blue", "#5794F2")])],
    activePalette := "grafana",
    thresholds :=
      [("percent_usage",
        [{ color := "$green", value := Json.null }, { color := "$red", value := Json.num 90 }])],
    selectors := [("host", "\x7binstance=~\"$instance\"\x7d")],
    constants := [("rate_interval", "5m")],
    variableDefs :=
      [("instance",
        { defVar with vtype := "query", datasource := "primary",
                      query := "label_values(up, instance)", multi := true,
                      includeAll := true }),
       ("interval",
        { defVar with vtype := "interval", values := "1m,5m,15m,30m,1h", auto := true,
                      autoCount := 10, autoMin := "10s", label := "interval" })] }



/-- A config with every binding of one name removed from the constants and
selectors tables, used to state that an empty-string binding behaves exactly
like an absent one. -/
def eraseName (c : Config) (name : String) : Config :=
  { c with constants := c.constants.filter (fun kv => kv.1 ≠ name),
           selectors := c.selectors.filter (fun kv => kv.1 ≠ name) }

/-- Place leaves the grid width unchanged. -/
theorem place_gridWidth (le : LayoutEngine) (w h : Int) :
    ((le.Place w h).2).gridWidth = le.gridWidth := by
  simp only [LayoutEngine.Place]
  split <;> rfl

/-- Go's conditional row-height growth is the max of old height and new. -/
theorem ite_gt_eq_max (a b : Int) : (if b > a then b else a) = max a b := by
  rcases le_or_lt b a with hba | hba
  · rw [max_eq_left hba, if_neg (not_lt.mpr hba)]
  · rw [max_eq_right hba.le, if_pos hba]

/-- On a 24-unit grid, a placement of width at most 24 never crosses the
right edge: either no wrap was needed and the cursor bound gives it, or the
wrap reset x to 0. -/
theorem place_x_bound (le : LayoutEngine) (w h : Int)
    (hgw : le.gridWidth = 24) (hw : w ≤ 24) :
    ((le.Place w h).1).1 + w ≤ 24 := by
  simp only [LayoutEngine.Place, hgw]
  split
  · simpa using hw
  · next hcond =>
      show le.cursorX + w ≤ 24
      omega

/-- C4: Place follows the documented algorithm exactly on every cursor state
of a 24-unit-grid engine (wrap first when the panel would overflow, report
the cursor, advance x, grow the row height to the max), and the concrete
sequence Place(12,7), Place(12,7), Place(13,5) from a fresh engine returns
(0,0), (12,0), (0,7). -/
theorem place_follows_spec :
    (∀ (s : LayoutEngine) (w h : Int), s.gridWidth = 24 →
      s.Place w h = placeSpec w h s) ∧
    (NewLayoutEngine.Place 12 7).1 = (0, 0) ∧
    (((NewLayoutEngine.Place 12 7).2).Place 12 7).1 = (12, 0) ∧
    ((((NewLayoutEngine.Place 12 7).2).Place 12 7).2.Place 13 5).1 = (0, 7) := by
  refine ⟨?_, by decide, by decide, by decide⟩
  intro s w h hgw
  simp only [LayoutEngine.Place, placeSpec, hgw, ite_gt_eq_max]

/-- Witness for C4 at a concrete engine and size. -/
theorem place_follows_spec_witness :
    NewLayoutEngine.Place 5 3 = placeSpec 5 3 NewLayoutEngine :=
  place_follows_spec.1 NewLayoutEngine 5 3 rfl

/-- C5 counterexample: with only the claim's positivity assumption the bound
fails — a single Place(25,1) on a fresh 24-unit engine returns x = 0 yet
x + w = 25 exceeds the grid width, so the claim as stated is false. -/
theorem place_overwide_counterexample :
    (0 : Int) < 25 ∧ (0 : Int) < 1 ∧
    ¬ ((NewLayoutEngine.Place 25 1).1.1 + 25 ≤ 24) := by
  refine ⟨by decide, by decide, by decide⟩

/-- C5 amended: in any call sequence on a 24-unit engine, every placement
whose requested width is positive and at most the grid width satisfies
x + w ≤ 24; an overflowing placement wraps to x = 0 first. -/
theorem place_sequence_in_grid :
    ∀ (calls : List (Int × Int)) (le : LayoutEngine), le.gridWidth = 24 →
      (∀ wh ∈ calls, 0 < wh.1 ∧ wh.1 ≤ 24) →
      ∀ e ∈ placeAll le calls, e.2.1 + e.1.1 ≤ 24 := by
  intro calls
  induction calls with
  | nil => intro le _ _ e he; simp [placeAll] at he
  | cons wh rest ih =>
    intro le hgw hall e he
    simp only [placeAll, List.mem_cons] at he
    rcases he with he | he
    · subst he
      exact place_x_bound le wh.1 wh.2 hgw (hall wh (by simp)).2
    · exact ih ((le.Place wh.1 wh.2).2)
        ((place_gridWidth le wh.1 wh.2).trans hgw)
        (fun x hx => hall x (by simp [hx])) e he

/-- Witness for C5 amended on a concrete two-call sequence. -/
theorem place_sequence_in_grid_witness :
    ((12, 7), ((0 : Int), (0 : Int))) ∈ placeAll NewLayoutEngine [(12, 7), (13, 5)] ∧
    (0 : Int) + 12 ≤ 24 :=
  ⟨by decide,
   place_sequence_in_grid [(12, 7), (13, 5)] NewLayoutEngine rfl (by decide)
     ((12, 7), (0, 0)) (by decide)⟩

/-- The id run from counter g is the contiguous range g+1, ..., g+n. -/
theorem idSeq_eq_range : ∀ (n g : Nat), idSeq g n = List.range' (g + 1) n := by
  intro n
  induction n with
  | zero => intro g; rfl
  | succ n ih =>
    intro g
    simp [idSeq, IDGenNext, List.range', ih (g + 1)]

/-- Runs of consecutive naturals are strictly ascending. -/
theorem range'_pairwise_lt : ∀ (n s : Nat), (List.range' s n).Pairwise (· < ·) := by
  intro n
  induction n with
  | zero => intro s; simp
  | succ n ih =>
    intro s
    rw [List.range'_succ]
    refine List.Pairwise.cons ?_ (ih (s + 1))
    intro a ha
    have := List.mem_range'_1.mp ha
    omega

/-- A successful Comparison constructor consumes exactly one id. -/
theorem comparison_consumes_id (c : Config) (g : Nat) (cfg : Obj) (x y : Int)
    (p : Obj) (g' : Nat) (h : Panel.comparison c g cfg x y = Except.ok (p, g')) :
    g' = g + 1 ∧ lookup p "id" = some (Json.num ((g : ℚ) + 1)) := by
  simp only [Panel.comparison] at h
  split at h
  · exact absurd h (by simp)
  · split at h
    · exact absurd h (by simp)
    · injection h with h2
      injection h2 with hp hg
      exact ⟨hg.symm, hp ▸ rfl⟩

/-- C8: ids increase by exactly 1 across successive constructions on one
generator, Reset restarts the sequence at 1, a run of n constructions after a
Reset yields exactly the ids 1..n (unique and strictly increasing), and every
successful FromConfig construction consumes exactly one id, stamping the
panel with counter + 1. -/
theorem panel_ids_sequential :
    (∀ g : Nat, IDGenNext g = (g + 1, g + 1)) ∧
    (∀ g : Nat, (IDGenNext (IDGenReset g)).1 = 1) ∧
    (∀ g n : Nat, idSeq (IDGenReset g) n = List.range' 1 n) ∧
    (∀ g n : Nat, (idSeq (IDGenReset g) n).Pairwise (· < ·)) ∧
    (∀ (c : Config) (g : Nat) (cfg : Obj) (x y : Int) (p : Obj) (g' : Nat),
      FromConfig c g cfg x y = Except.ok (p, g') →
      g' = g + 1 ∧ lookup p "id" = some (Json.num ((g : ℚ) + 1))) := by
  refine ⟨fun g => rfl, fun g => rfl, fun g n => idSeq_eq_range n 0, ?_, ?_⟩
  · intro g n
    rw [show IDGenReset g = 0 from rfl, idSeq_eq_range n 0]
    exact range'_pairwise_lt n 1
  · intro c g cfg x y p g' h
    unfold FromConfig fromConfigDispatch at h
    split at h
    all_goals first
      | (injection h with h2; injection h2 with hp hg; exact ⟨hg.symm, hp ▸ rfl⟩)
      | (exact comparison_consumes_id c g cfg x y p g' h)
      | (exact absurd h (by simp))

/-- Witness for C8's FromConfig clause at a concrete stat panel. -/
theorem panel_ids_sequential_witness :
    lookup (Panel.stat testCfg 0 [("type", Json.str "stat"), ("query", Json.str "up")] 0 0).1
      "id" = some (Json.num ((0 : ℚ) + 1)) :=
  (panel_ids_sequential.2.2.2.2 testCfg 0
    [("type", Json.str "stat"), ("query", Json.str "up")] 0 0
    (Panel.stat testCfg 0 [("type", Json.str "stat"), ("query", Json.str "up")] 0 0).1
    1 rfl).2

/-- takeWhile and dropWhile on a word run closed by a non-word character. -/
theorem takeWhile_dropWhile_closed {p : Char → Bool} (l t : List Char)
    (hl : ∀ a ∈ l, p a) (x : Char) (hx : p x = false) :
    (l ++ x :: t).takeWhile p = l ∧ (l ++ x :: t).dropWhile p = x :: t := by
  induction l with
  | nil => simp [List.takeWhile, List.dropWhile, hx]
  | cons a as ih =>
    have ha : p a = true := hl a (by simp)
    have h2 := ih (fun b hb => hl b (by simp [hb]))
    simp [List.takeWhile, List.dropWhile, ha, h2.1, h2.2]

/-- refScan never does anything on the empty list. -/
theorem refScan_nil (cst sel : String → String) (n : Nat) :
    refScan cst sel n [] = [] := by
  cases n <;> rfl

/-- One scan step over a complete braced token whose name resolves to "" in
both tables: the token is copied verbatim and scanning resumes after it. -/
theorem refScan_token_step (cst sel : String → String) (fuel : Nat)
    (name tail : List Char) (hw : ∀ a ∈ name, isWordChar a) (hne : name ≠ [])
    (hc : cst (String.mk name) = "") (hs : sel (String.mk name) = "") :
    refScan cst sel (fuel + 1) ('$' :: '{' :: (name ++ '}' :: tail)) =
      '$' :: '{' :: (name ++ '}' :: refScan cst sel fuel tail) := by
  have hwb : isWordChar '}' = false := by decide
  obtain ⟨htw, hdw⟩ := takeWhile_dropWhile_closed name tail hw '}' hwb
  simp [refScan, hdw, htw, hne, refRepl, hc, hs]

/-- Scan step: an ordinary character is copied. -/
theorem refScan_cons_ne (cst sel : String → String) (n : Nat) (c : Char)
    (rest : List Char) (h : ¬ c = '$') :
    refScan cst sel (n + 1) (c :: rest) = c :: refScan cst sel n rest := by
  conv_lhs => rw [refScan.eq_def]
  simp [h]

/-- Scan step: a trailing dollar sign is copied. -/
theorem refScan_dollar_nil (cst sel : String → String) (n : Nat) :
    refScan cst sel (n + 1) ['$'] = ['$'] := by
  conv_lhs => rw [refScan.eq_def]
  simp [refScan_nil]

/-- Scan step: a dollar sign not followed by an opening brace is copied. -/
theorem refScan_dollar_ne (cst sel : String → String) (n : Nat) (c2 : Char)
    (rest2 : List Char) (h : ¬ c2 = '{') :
    refScan cst sel (n + 1) ('$' :: c2 :: rest2) = '$' :: refScan cst sel n (c2 :: rest2) := by
  conv_lhs => rw [refScan.eq_def]
  simp [h]

/-- Scan step: a dollar-brace whose body runs out of word characters with
no closing brace is copied as a literal dollar sign. -/
theorem refScan_brace_nodrop (cst sel : String → String) (n : Nat)
    (rest2 : List Char) (h : rest2.dropWhile isWordChar = []) :
    refScan cst sel (n + 1) ('$' :: '{' :: rest2) = '$' :: refScan cst sel n ('{' :: rest2) := by
  conv_lhs => rw [refScan.eq_def]
  simp [h]

/-- Scan step: a dollar-brace whose word run stops before a non-brace
character is copied as a literal dollar sign. -/
theorem refScan_brace_notclose (cst sel : String → String) (n : Nat)
    (rest2 : List Char) (c3 : Char) (tail : List Char)
    (hdw : rest2.dropWhile isWordChar = c3 :: tail) (h3 : ¬ c3 = '}') :
    refScan cst sel (n + 1) ('$' :: '{' :: rest2) = '$' :: refScan cst sel n ('{' :: rest2) := by
  conv_lhs => rw [refScan.eq_def]
  simp [hdw, h3]

/-- Scan step: an empty-name dollar-brace pair is copied as a literal. -/
theorem refScan_brace_empty (cst sel : String → String) (n : Nat)
    (rest2 tail : List Char) (hdw : rest2.dropWhile isWordChar = '}' :: tail)
    (htw : rest2.takeWhile isWordChar = []) :
    refScan cst sel (n + 1) ('$' :: '{' :: rest2) = '$' :: refScan cst sel n ('{' :: rest2) := by
  conv_lhs => rw [refScan.eq_def]
  simp [hdw, htw]

/-- Match-detection step: an ordinary character. -/
theorem hasRef_cons_ne (c : Char) (rest : List Char) (h : ¬ c = '$') :
    hasRef (c :: rest) = hasRef rest := by
  conv_lhs => rw [hasRef.eq_def]
  simp [h]

/-- Match-detection step: a dollar sign with no opening brace after it. -/
theorem hasRef_dollar_ne (c2 : Char) (rest2 : List Char) (h : ¬ c2 = '{') :
    hasRef ('$' :: c2 :: rest2) = hasRef (c2 :: rest2) := by
  conv_lhs => rw [hasRef.eq_def]
  simp [h]

/-- Match-detection step: a dollar-brace with no closing brace ahead. -/
theorem hasRef_brace_nodrop (rest2 : List Char)
    (h : rest2.dropWhile isWordChar = []) :
    hasRef ('$' :: '{' :: rest2) = hasRef ('{' :: rest2) := by
  conv_lhs => rw [hasRef.eq_def]
  simp [h]

/-- Match-detection step: the word run stops before a non-brace character. -/
theorem hasRef_brace_notclose (rest2 : List Char) (c3 : Char) (tail : List Char)
    (hdw : rest2.dropWhile isWordChar = c3 :: tail) (h3 : ¬ c3 = '}') :
    hasRef ('$' :: '{' :: rest2) = hasRef ('{' :: rest2) := by
  conv_lhs => rw [hasRef.eq_def]
  simp [hdw, h3]

/-- Match-detection step: an empty-name dollar-brace pair. -/
theorem hasRef_brace_empty (rest2 tail : List Char)
    (hdw : rest2.dropWhile isWordChar = '}' :: tail)
    (htw : rest2.takeWhile isWordChar = []) :
    hasRef ('$' :: '{' :: rest2) = hasRef ('{' :: rest2) := by
  conv_lhs => rw [hasRef.eq_def]
  simp [hdw, htw]

/-- Match-detection step: a complete nonempty braced token is a match. -/
theorem hasRef_brace_match (rest2 tail : List Char)
    (hdw : rest2.dropWhile isWordChar = '}' :: tail)
    (htw : rest2.takeWhile isWordChar ≠ []) :
    hasRef ('$' :: '{' :: rest2) = true := by
  conv_lhs => rw [hasRef.eq_def]
  simp [hdw, htw]

/-- A string with no braced-reference match is scanned through unchanged. -/
theorem refScan_of_not_hasRef (cst sel : String → String) :
    ∀ (n : Nat) (l : List Char), hasRef l = false → refScan cst sel n l = l := by
  intro n
  induction n with
  | zero => intro l _; rfl
  | succ n ih =>
    intro l hl
    rcases l with _ | ⟨c, rest⟩
    · rfl
    by_cases hc : c = '$'
    · subst hc
      rcases rest with _ | ⟨c2, rest2⟩
      · exact refScan_dollar_nil cst sel n
      by_cases h2 : c2 = '{'
      · subst h2
        rcases hdw : rest2.dropWhile isWordChar with _ | ⟨c3, tail⟩
        · rw [hasRef_brace_nodrop rest2 hdw] at hl
          rw [refScan_brace_nodrop cst sel n rest2 hdw, ih _ hl]
        by_cases h3 : c3 = '}'
        · subst h3
          by_cases h4 : rest2.takeWhile isWordChar = []
          · rw [hasRef_brace_empty rest2 tail hdw h4] at hl
            rw [refScan_brace_empty cst sel n rest2 tail hdw h4, ih _ hl]
          · rw [hasRef_brace_match rest2 tail hdw h4] at hl
            exact absurd hl (by simp)
        · rw [hasRef_brace_notclose rest2 c3 tail hdw h3] at hl
          rw [refScan_brace_notclose cst sel n rest2 c3 tail hdw h3, ih _ hl]
      · rw [hasRef_dollar_ne c2 rest2 h2] at hl
        rw [refScan_dollar_ne cst sel n c2 rest2 h2, ih _ hl]
    · rw [hasRef_cons_ne c rest hc] at hl
      rw [refScan_cons_ne cst sel n c rest hc, ih _ hl]

/-- Definitional unfolding of tblLookup on a cons cell. -/
theorem tblLookup_cons {α : Type} (k1 : String) (v1 : α) (rest : List (String × α))
    (k : String) :
    tblLookup ((k1, v1) :: rest) k = if k1 = k then some v1 else tblLookup rest k := rfl

/-- Filtering out one key leaves lookups of other keys unchanged. -/
theorem tblLookup_filter_ne {α : Type} (t : List (String × α)) (name k : String)
    (hk : k ≠ name) :
    tblLookup (t.filter (fun kv => kv.1 ≠ name)) k = tblLookup t k := by
  induction t with
  | nil => rfl
  | cons kv rest ih =>
    rcases kv with ⟨k1, v1⟩
    rw [List.filter_cons]
    by_cases h1 : k1 = name
    · rw [if_neg (by simp [h1]), ih, tblLookup_cons,
        if_neg (fun h => hk ((h.symm.trans h1)))]
    · rw [if_pos (by simp [h1]), tblLookup_cons, tblLookup_cons]
      by_cases h2 : k1 = k
      · rw [if_pos h2, if_pos h2]
      · rw [if_neg h2, if_neg h2, ih]

/-- Filtering out one key removes it from lookups. -/
theorem tblLookup_filter_self {α : Type} (t : List (String × α)) (name : String) :
    tblLookup (t.filter (fun kv => kv.1 ≠ name)) name = none := by
  induction t with
  | nil => rfl
  | cons kv rest ih =>
    rcases kv with ⟨k1, v1⟩
    rw [List.filter_cons]
    by_cases h1 : k1 = name
    · rw [if_neg (by simp [h1])]
      exact ih
    · rw [if_pos (by simp [h1]), tblLookup_cons, if_neg h1]
      exact ih

/-- An empty-string constant binding reads back exactly like an absent one. -/
theorem getConstant_erase (c : Config) (name : String)
    (hc : c.GetConstant name = "") :
    c.GetConstant = (eraseName c name).GetConstant := by
  have he : (eraseName c name).constants = c.constants.filter (fun kv => kv.1 ≠ name) := rfl
  funext n
  by_cases hn : n = name
  · subst hn
    rw [hc, Config.GetConstant, he, tblLookup_filter_self]
  · rw [Config.GetConstant, Config.GetConstant, he, tblLookup_filter_ne c.constants name n hn]

/-- An empty-string selector binding reads back exactly like an absent one. -/
theorem getSelector_erase (c : Config) (name : String)
    (hs : c.GetSelector name = "") :
    c.GetSelector = (eraseName c name).GetSelector := by
  have he : (eraseName c name).selectors = c.selectors.filter (fun kv => kv.1 ≠ name) := rfl
  funext n
  by_cases hn : n = name
  · subst hn
    rw [hs, Config.GetSelector, he, tblLookup_filter_self]
  · rw [Config.GetSelector, Config.GetSelector, he, tblLookup_filter_ne c.selectors name n hn]

/-- C10: a name bound to the empty string in the constants or selectors table
can never be substituted — ResolveRef behaves on every input exactly as if
the name were undefined, and a braced token naming it is left literally in
the output. -/
theorem empty_binding_never_substituted (c : Config) (name : String)
    (hc : c.GetConstant name = "") (hs : c.GetSelector name = "") :
    (∀ s : String, c.ResolveRef s = (eraseName c name).ResolveRef s) ∧
    (name.data ≠ [] → (∀ a ∈ name.data, isWordChar a) →
      c.ResolveRef ("$\x7b" ++ name ++ "\x7d") = "$\x7b" ++ name ++ "\x7d") := by
  constructor
  · intro s
    rw [Config.ResolveRef, Config.ResolveRef,
      getConstant_erase c name hc, getSelector_erase c name hs]
  · intro hne hw
    have hdata : ("$\x7b" ++ name ++ "\x7d").data = '$' :: '{' :: (name.data ++ '}' :: []) := by
      simp [String.data_append]
    have hmk : String.mk name.data = name := rfl
    rw [Config.ResolveRef, hdata]
    have hlen : ('$' :: '{' :: (name.data ++ '}' :: [])).length = (name.data.length + 2) + 1 := by
      simp
    rw [hlen, refScan_token_step c.GetConstant c.GetSelector (name.data.length + 2)
        name.data [] hw hne (hmk ▸ hc) (hmk ▸ hs), refScan_nil]
    rw [← hdata]

/-- Witness for C10 with a constant bound to the empty string. -/
theorem empty_binding_never_substituted_witness :
    Config.ResolveRef { testCfg with constants := [("e", "")] } "$\x7be\x7d" = "$\x7be\x7d" :=
  (empty_binding_never_substituted { testCfg with constants := [("e", "")] } "e" rfl rfl).2
    (by decide) (by decide)

/-- C6 counterexample: the claim says an unresolvable reference is left
literally in the output, but ResolveColor strips the dollar prefix on a
palette miss — "$missing" resolves to "missing", not to "$missing". -/
theorem resolve_color_not_literal_counterexample :
    tblLookup testCfg.palette "missing" = none ∧
    testCfg.ResolveColor "$missing" = "missing" ∧
    testCfg.ResolveColor "$missing" ≠ "$missing" :=
  ⟨by decide, by decide, by decide⟩

/-- C6 amended: reference resolution is total and deterministic — every input
has exactly one output and no failure path exists; an unresolved braced token
is left literally by ResolveRef; ResolveColor on an unresolved dollar-name
returns the bare name with the dollar sign stripped (not the literal token);
re-resolving a string with no reference match returns it unchanged, and
ResolveColor passes every non-dollar string through unchanged. -/
theorem resolution_total_and_literal :
    (∀ (c : Config) (s : String), ∃! t : String, c.ResolveRef s = t) ∧
    (∀ (c : Config) (s : String), ∃! t : String, c.ResolveColor s = t) ∧
    (∀ (c : Config) (name : String),
      tblLookup c.constants name = none → tblLookup c.selectors name = none →
      name.data ≠ [] → (∀ a ∈ name.data, isWordChar a) →
      c.ResolveRef ("$\x7b" ++ name ++ "\x7d") = "$\x7b" ++ name ++ "\x7d") ∧
    (∀ (c : Config) (name : String), tblLookup c.palette name = none →
      c.ResolveColor ("$" ++ name) = name) ∧
    (∀ (c : Config) (s : String), hasRef s.data = false → c.ResolveRef s = s) ∧
    (∀ (c : Config) (s : String), strHasPref s "$" = false → c.ResolveColor s = s) := by
  refine ⟨fun c s => ⟨c.ResolveRef s, rfl, fun y hy => hy.symm⟩,
    fun c s => ⟨c.ResolveColor s, rfl, fun y hy => hy.symm⟩, ?_, ?_, ?_, ?_⟩
  · intro c name hcn hsn hne hw
    have hc : c.GetConstant name = "" := by rw [Config.GetConstant, hcn]
    have hs : c.GetSelector name = "" := by rw [Config.GetSelector, hsn]
    exact (empty_binding_never_substituted c name hc hs).2 hne hw
  · intro c name hp
    have hdata : ("$" ++ name).data = '$' :: name.data := by
      simp [String.data_append]
    have hpre : strHasPref ("$" ++ name) "$" = true := by
      rw [strHasPref, hdata]
      simp [listStarts]
    rw [Config.ResolveColor, if_pos hpre, hdata]
    show c.resolveColorName (String.mk name.data) = name
    have hmk : String.mk name.data = name := rfl
    rw [hmk, Config.resolveColorName, hp]
  · intro c s h
    rw [Config.ResolveRef, refScan_of_not_hasRef c.GetConstant c.GetSelector s.data.length s.data h]
  · intro c s h
    rw [Config.ResolveColor, if_neg (by simp [h])]

/-- Witness for C6 amended at concrete unresolved names and a plain string. -/
theorem resolution_total_and_literal_witness :
    testCfg.ResolveRef "$\x7bzzz\x7d" = "$\x7bzzz\x7d" ∧
    testCfg.ResolveColor "$zzz" = "zzz" ∧
    testCfg.ResolveRef "plain text" = "plain text" :=
  ⟨resolution_total_and_literal.2.2.1 testCfg "zzz" (by decide) (by decide)
      (by decide) (by decide),
   resolution_total_and_literal.2.2.2.1 testCfg "zzz" (by decide),
   resolution_total_and_literal.2.2.2.2.1 testCfg "plain text" (by decide)⟩

/-- A successful comparison-target loop run means every listed datasource
name was resolvable. -/
theorem comparisonTargets_ok_all (c : Config) (metric mt : String)
    (lo : Option String) :
    ∀ (names : List String) (i : Nat) (ts : List Json),
      comparisonTargets c metric mt lo i names = Except.ok ts →
      ∀ n ∈ names, (c.GetDatasource n).toOption.isSome := by
  intro names
  induction names with
  | nil => simp
  | cons nm rest ih =>
    intro i ts h n hn
    simp only [comparisonTargets] at h
    rcases hds : c.GetDatasource nm with e | ds
    · rw [hds] at h
      exact absurd h (by simp)
    · rw [hds] at h
      rcases hrec : comparisonTargets c metric mt lo (i + 1) rest with e2 | ts2
      · rw [hrec] at h
        exact absurd h (by simp)
      · rcases List.mem_cons.mp hn with hn1 | hn2
        · subst hn1
          rw [hds]
          rfl
        · exact ih (i + 1) ts2 hrec n hn2

/-- C7 counterexample: a comparison panel naming an unresolvable datasource
fails with that datasource's lookup error even though a configured default
datasource exists — it does not fall back, contradicting the claim. -/
theorem comparison_no_fallback_counterexample :
    (testCfg.GetDatasource "missing").toOption = none ∧
    testCfg.datasources.find? (fun kv => kv.2.isDefault) ≠ none ∧
    Panel.comparison testCfg 0
      [("datasources", Json.arr [Json.str "missing", Json.str "primary"])] 0 0 =
      Except.error "datasource 'missing' not defined in config" :=
  ⟨rfl, by decide, rfl⟩

/-- C7 amended: for non-comparison panel construction an unresolvable named
datasource silently falls back to the configured default, and the default
lookup itself never fails — with an empty datasource table it degrades to a
built-in prometheus reference rather than erroring; comparison panels are
the exception: any unresolvable name among their datasources aborts the
construction with an error. -/
theorem datasource_fallback_policy :
    (∀ (c : Config) (cfg : Obj),
      (c.GetDatasource (getString cfg "datasource" "")).toOption = none →
      dsJson c cfg = Json.obj
        [("type", Json.str c.GetDefaultDatasource.dtype),
         ("uid", Json.str c.GetDefaultDatasource.uid)]) ∧
    (∀ c : Config, c.datasources = [] →
      c.GetDefaultDatasource = { dtype := "prometheus", uid := "prometheus" }) ∧
    (∀ (c : Config) (g : Nat) (cfg : Obj) (x y : Int) (p : Obj) (g' : Nat),
      (∃ n ∈ getStringSliceAsStrings cfg "datasources",
        (c.GetDatasource n).toOption = none) →
      Panel.comparison c g cfg x y ≠ Except.ok (p, g')) := by
  refine ⟨?_, ?_, ?_⟩
  · intro c cfg hn
    simp only [dsJson]
    by_cases hd : getString cfg "datasource" "" ≠ ""
    · rw [if_pos hd, hn]
    · rw [if_neg hd]
  · intro c h
    rw [Config.GetDefaultDatasource, h]
    rfl
  · intro c g cfg x y p g' ⟨n, hn, hnone⟩ hcomp
    simp only [Panel.comparison] at hcomp
    split at hcomp
    · exact absurd hcomp (by simp)
    · rcases hm : comparisonTargets c (getString cfg "metric" "up")
          (getString cfg "metric_type" "gauge")
          (match lookup cfg "legend" with
           | some (Json.str s) => some s
           | _ => none) 0 (getStringSliceAsStrings cfg "datasources") with e | ts
      · rw [hm] at hcomp
        exact absurd hcomp (by simp)
      · have := comparisonTargets_ok_all c (getString cfg "metric" "up")
          (getString cfg "metric_type" "gauge")
          (match lookup cfg "legend" with
           | some (Json.str s) => some s
           | _ => none) (getStringSliceAsStrings cfg "datasources") 0 ts hm n hn
        rw [hnone] at this
        exact absurd this (by simp)

/-- Witness for C7 amended: a stat-style spec naming an unknown datasource
resolves to the configured default. -/
theorem datasource_fallback_policy_witness :
    dsJson testCfg [("datasource", Json.str "nope")] = Json.obj
      [("type", Json.str testCfg.GetDefaultDatasource.dtype),
       ("uid", Json.str testCfg.GetDefaultDatasource.uid)] :=
  datasource_fallback_policy.1 testCfg [("datasource", Json.str "nope")] (by decide)

/-- Setting one key leaves lookups of other keys unchanged. -/
theorem lookup_setKey_ne (m : Obj) (k k' : String) (v : Json) (h : ¬ k' = k) :
    lookup (setKey m k v) k' = lookup m k' := by
  induction m with
  | nil =>
    simp only [setKey, lookup]
    rw [if_neg (fun hk => h hk.symm)]
  | cons kv rest ih =>
    rcases kv with ⟨k1, v1⟩
    simp only [setKey]
    by_cases h1 : k1 = k
    · rw [if_pos h1]
      simp only [lookup]
      rw [if_neg (fun hk => h hk.symm), if_neg (fun hk => h (h1 ▸ hk).symm)]
    · rw [if_neg h1]
      simp only [lookup]
      by_cases h2 : k1 = k'
      · rw [if_pos h2, if_pos h2]
      · rw [if_neg h2, if_neg h2, ih]

/-- C9 counterexample: for an interval variable the emitted query field is the
plain literal duration string, not the query/refId object the claim demands
for every variable kind. -/
theorem variable_query_shape_counterexample :
    (BuildVariable testCfg "interval").toOption.bind (fun d => lookup d "query") =
      some (Json.str "1m,5m,15m,30m,1h") ∧
    Json.str "1m,5m,15m,30m,1h" ≠ Json.obj
      [("query", Json.str ""), ("refId", Json.str "StandardVariableQuery")] :=
  ⟨rfl, by simp⟩

/-- C9 amended: the query/refId object shape holds exactly for the variable
kinds that keep the base dict — type "query" (including an empty or
unrecognized type tag, which defaults to "query"); the custom, datasource and
interval kinds overwrite the query field with a plain string. -/
theorem variable_query_object_shape (c : Config) (name : String) (v : VariableDef)
    (hv : tblLookup c.variableDefs name = some v)
    (h1 : ¬ (if v.vtype = "" then "query" else v.vtype) = "custom")
    (h2 : ¬ (if v.vtype = "" then "query" else v.vtype) = "datasource")
    (h3 : ¬ (if v.vtype = "" then "query" else v.vtype) = "interval") :
    (BuildVariable c name).toOption.bind (fun d => lookup d "query") =
      some (Json.obj [("query", Json.str (c.ResolveRef v.query)),
                      ("refId", Json.str "StandardVariableQuery")]) := by
  simp only [BuildVariable, hv]
  rw [if_neg h1, if_neg h2, if_neg h3]
  by_cases ha : v.allValue ≠ ""
  · rw [if_pos ha]
    rw [show ∀ m : Obj, (Except.ok m : Except String Obj).toOption.bind
        (fun d => lookup d "query") = lookup m "query" from fun m => rfl]
    rw [lookup_setKey_ne _ _ _ _ (by decide)]
    rfl
  · rw [if_neg ha]
    rfl

/-- Witness for C9 amended at the fixture's query variable. -/
theorem variable_query_object_shape_witness :
    (BuildVariable testCfg "instance").toOption.bind (fun d => lookup d "query") =
      some (Json.obj [("query", Json.str "label_values(up, instance)"),
                      ("refId", Json.str "StandardVariableQuery")]) :=
  variable_query_object_shape testCfg "instance"
    { defVar with vtype := "query", datasource := "primary",
                  query := "label_values(up, instance)", multi := true,
                  includeAll := true }
    rfl (by decide) (by decide) (by decide)

/-- Reading an absent integer key yields the supplied default. -/
theorem getInt_none (m : Obj) (k : String) (d : Int) (h : lookup m k = none) :
    getInt m k d = d := by
  rw [getInt, h]

/-- Reading a present string key yields its value. -/
theorem getString_some (m : Obj) (k : String) (d s : String)
    (h : lookup m k = some (Json.str s)) :
    getString m k d = s := by
  rw [getString, h]

/-- The explicit-target-list loop emits positional refIds starting at the
letter for index i, and per-entry datasource overrides replace the panel
datasource exactly when the named datasource resolves. -/
theorem listTargets_spec (c : Config) (ds : Json) :
    ∀ (items : List Json) (i : Nat),
      (∀ it ∈ items, ∃ o, it = Json.obj o) →
      (listTargets c ds i items).map (fun t => getField t "refId") =
        (List.range' i items.length).map
          (fun j => some (Json.str (String.mk [Char.ofNat (65 + j)]))) ∧
      (listTargets c ds i items).map (fun t => getField t "datasource") =
        items.map (fun it => some (
          match (match getField it "datasource" with
                 | some (Json.str dn) => (c.GetDatasource dn).toOption
                 | _ => none) with
          | some ref => Json.obj [("type", Json.str ref.dtype), ("uid", Json.str ref.uid)]
          | none => ds)) := by
  intro items
  induction items with
  | nil => intro i _; exact ⟨rfl, rfl⟩
  | cons it rest ih =>
    intro i hobj
    obtain ⟨o, ho⟩ := hobj it (by simp)
    subst ho
    obtain ⟨ih1, ih2⟩ := ih (i + 1) (fun x hx => hobj x (by simp [hx]))
    have hunf : listTargets c ds i (Json.obj o :: rest) =
        targetJson c (getString o "expr" "")
          (getString o "legend" "\x7b\x7binstance\x7d\x7d")
          (String.mk [Char.ofNat (65 + i)])
          (some (match (match lookup o "datasource" with
                        | some (Json.str dn) => (c.GetDatasource dn).toOption
                        | _ => none) with
                 | some ref => Json.obj
                     [("type", Json.str ref.dtype), ("uid", Json.str ref.uid)]
                 | none => ds)) :: listTargets c ds (i + 1) rest := rfl
    constructor
    · rw [hunf, List.map_cons, ih1, List.length_cons, List.range'_succ, List.map_cons]
      rfl
    · rw [hunf, List.map_cons, List.map_cons, ih2]
      rfl

/-- C2 counterexample: with both a query shorthand and an explicit target
list the shorthand still contributes a target — the build yields two targets
(both with refId "A"), not the single list target the claim's override
semantics would give. -/
theorem shorthand_not_overridden_counterexample :
    (buildTargets testCfg
      [("query", Json.str "q"),
       ("targets", Json.arr [Json.obj [("expr", Json.str "metric_a")]])] none).length = 2 ∧
    ¬ (buildTargets testCfg
      [("query", Json.str "q"),
       ("targets", Json.arr [Json.obj [("expr", Json.str "metric_a")]])] none).length = 1 ∧
    (buildTargets testCfg
      [("query", Json.str "q"),
       ("targets", Json.arr [Json.obj [("expr", Json.str "metric_a")]])] none).map
        (fun t => getField t "refId") = [some (Json.str "A"), some (Json.str "A")] :=
  ⟨rfl, by decide, rfl⟩

/-- C2 amended: a lone query shorthand becomes exactly one target with refId
"A" and the resolved expression; an explicit target list does not suppress
the shorthand — its entries are appended after the shorthand's target, with
refIds assigned by list position starting again at "A", and a per-target
named datasource override replaces the panel datasource exactly when it
resolves. -/
theorem build_targets_assembly :
    (∀ (c : Config) (cfg : Obj) (q : String),
      lookup cfg "query" = some (Json.str q) → lookup cfg "targets" = none →
      (buildTargets c cfg none).length = 1 ∧
      (buildTargets c cfg none).map (fun t => getField t "refId") =
        [some (Json.str "A")] ∧
      (buildTargets c cfg none).map (fun t => getField t "expr") =
        [some (Json.str (c.ResolveRef q))]) ∧
    (∀ (c : Config) (cfg : Obj) (q : String) (items : List Json),
      lookup cfg "query" = some (Json.str q) →
      lookup cfg "targets" = some (Json.arr items) →
      (∀ it ∈ items, ∃ o, it = Json.obj o) →
      (buildTargets c cfg none).length = items.length + 1 ∧
      (buildTargets c cfg none).map (fun t => getField t "refId") =
        some (Json.str "A") ::
          (List.range' 0 items.length).map
            (fun j => some (Json.str (String.mk [Char.ofNat (65 + j)])))) ∧
    (∀ (c : Config) (cfg : Obj) (items : List Json),
      lookup cfg "query" = none →
      lookup cfg "targets" = some (Json.arr items) →
      (∀ it ∈ items, ∃ o, it = Json.obj o) →
      (buildTargets c cfg none).map (fun t => getField t "refId") =
        (List.range' 0 items.length).map
          (fun j => some (Json.str (String.mk [Char.ofNat (65 + j)]))) ∧
      (buildTargets c cfg none).map (fun t => getField t "datasource") =
        items.map (fun it => some (
          match (match getField it "datasource" with
                 | some (Json.str dn) => (c.GetDatasource dn).toOption
                 | _ => none) with
          | some ref => Json.obj [("type", Json.str ref.dtype), ("uid", Json.str ref.uid)]
          | none => dsJson c cfg))) := by
  refine ⟨?_, ?_, ?_⟩
  · intro c cfg q hq ht
    have hb : buildTargets c cfg none =
        [targetJson c q (getString cfg "legend" "\x7b\x7binstance\x7d\x7d") "A"
          (some (dsJson c cfg))] := by
      rw [buildTargets, hq, ht]
      rfl
    rw [hb]
    exact ⟨rfl, rfl, rfl⟩
  · intro c cfg q items hq ht hobj
    obtain ⟨h1, h2⟩ := listTargets_spec c (dsJson c cfg) items 0 hobj
    have hb : buildTargets c cfg none =
        targetJson c q (getString cfg "legend" "\x7b\x7binstance\x7d\x7d") "A"
          (some (dsJson c cfg)) :: listTargets c (dsJson c cfg) 0 items := by
      rw [buildTargets, hq, ht]
      rfl
    have hlen : (listTargets c (dsJson c cfg) 0 items).length = items.length := by
      have := congrArg List.length h1
      simpa using this
    rw [hb]
    constructor
    · rw [List.length_cons, hlen]
    · rw [List.map_cons, h1]
      rfl
  · intro c cfg items hq ht hobj
    obtain ⟨h1, h2⟩ := listTargets_spec c (dsJson c cfg) items 0 hobj
    have hb : buildTargets c cfg none = listTargets c (dsJson c cfg) 0 items := by
      rw [buildTargets, hq, ht]
      rfl
    rw [hb]
    exact ⟨h1, h2⟩

/-- Witness for C2 amended at a concrete shorthand-only spec. -/
theorem build_targets_assembly_witness :
    (buildTargets testCfg [("query", Json.str "up")] none).map
      (fun t => getField t "refId") = [some (Json.str "A")] :=
  (build_targets_assembly.1 testCfg [("query", Json.str "up")] "up" rfl rfl).2.1

/-- When every named datasource resolves, the comparison-target loop succeeds
and produces one target per datasource: all with the same (resolved)
counter-or-gauge expression, each with the legend-prefixing rule applied for
its datasource, and positional refIds. -/
theorem comparisonTargets_spec (c : Config) (metric mt : String) (lo : Option String) :
    ∀ (names : List String) (i : Nat),
      (∀ n ∈ names, (c.GetDatasource n).toOption.isSome) →
      ∃ ts : List Json,
        comparisonTargets c metric mt lo i names = Except.ok ts ∧
        ts.length = names.length ∧
        ts.map (fun t => getField t "expr") =
          names.map (fun _ => some (Json.str (c.ResolveRef
            (if mt = "counter" then "rate(" ++ metric ++ "[5m])" else metric)))) ∧
        ts.map (fun t => getField t "legendFormat") =
          names.map (fun n => some (Json.str
            (if strContains (lo.getD (n ++ ": \x7b\x7binstance\x7d\x7d")) n then
               lo.getD (n ++ ": \x7b\x7binstance\x7d\x7d")
             else n ++ ": " ++ lo.getD (n ++ ": \x7b\x7binstance\x7d\x7d")))) ∧
        ts.map (fun t => getField t "refId") =
          (List.range' i names.length).map
            (fun j => some (Json.str (String.mk [Char.ofNat (65 + j)]))) := by
  intro names
  induction names with
  | nil =>
    intro i _
    exact ⟨[], rfl, rfl, rfl, rfl, rfl⟩
  | cons nm rest ih =>
    intro i hall
    have hnm := hall nm (by simp)
    rcases hds : c.GetDatasource nm with e | ds
    · rw [hds] at hnm
      exact absurd hnm (by simp [Except.toOption])
    obtain ⟨ts', hok', hlen', hexpr', hleg', href'⟩ :=
      ih (i + 1) (fun n hn => hall n (by simp [hn]))
    refine ⟨Json.obj
      [("datasource", Json.obj [("type", Json.str ds.dtype), ("uid", Json.str ds.uid)]),
       ("editorMode", Json.str "code"),
       ("expr", Json.str (c.ResolveRef
         (if mt = "counter" then "rate(" ++ metric ++ "[5m])" else metric))),
       ("legendFormat", Json.str
         (if strContains (lo.getD (nm ++ ": \x7b\x7binstance\x7d\x7d")) nm then
            lo.getD (nm ++ ": \x7b\x7binstance\x7d\x7d")
          else nm ++ ": " ++ lo.getD (nm ++ ": \x7b\x7binstance\x7d\x7d"))),
       ("range", Json.bool true),
       ("refId", Json.str (String.mk [Char.ofNat (65 + i)]))] :: ts',
      ?_, ?_, ?_, ?_, ?_⟩
    · simp only [comparisonTargets, hds, hok']
    · rw [List.length_cons, List.length_cons, hlen']
    · rw [List.map_cons, List.map_cons, hexpr']
      rfl
    · rw [List.map_cons, List.map_cons, hleg']
      rfl
    · rw [List.map_cons, List.length_cons, List.range'_succ, List.map_cons, href']
      rfl

/-- C3 counterexample: the emitted comparison expression is the metric after
reference resolution, not the verbatim rate(<metric>[5m]) of the claim — a
metric containing a constant reference is substituted. -/
theorem comparison_expr_resolved_counterexample :
    (Panel.comparison testCfg 0
      [("metric", Json.str "$\x7brate_interval\x7d"),
       ("metric_type", Json.str "counter"),
       ("datasources", Json.arr [Json.str "primary", Json.str "secondary"])]
      0 0).toOption.bind
        (fun pg => ((panelTargets pg.1).head?).bind (fun t => getField t "expr")) =
      some (Json.str "rate(5m[5m])") ∧
    ¬ (some (Json.str "rate(5m[5m])") =
        some (Json.str "rate($\x7brate_interval\x7d[5m])")) :=
  ⟨rfl, by simp⟩

/-- C3 amended: a comparison spec with fewer than two listed datasource names
fails with the validation error; with at least two names, all resolvable, it
succeeds and yields one target per datasource whose expression is the
reference-resolved rate(<metric>[5m]) for a counter metric and the resolved
bare metric otherwise, whose legend is prefixed by its datasource name unless
the configured legend already contains that name, and whose top-level
datasource is exactly the mixed-datasource marker. -/
theorem comparison_behavior :
    (∀ (c : Config) (g : Nat) (cfg : Obj) (x y : Int),
      (getStringSliceAsStrings cfg "datasources").length < 2 →
      Panel.comparison c g cfg x y =
        Except.error "comparison panel requires at least 2 datasources") ∧
    (∀ (c : Config) (g : Nat) (cfg : Obj) (x y : Int),
      2 ≤ (getStringSliceAsStrings cfg "datasources").length →
      (∀ n ∈ getStringSliceAsStrings cfg "datasources",
        (c.GetDatasource n).toOption.isSome) →
      ∃ p : Obj, ∃ g' : Nat,
        Panel.comparison c g cfg x y = Except.ok (p, g') ∧
        lookup p "datasource" = some (Json.obj
          [("type", Json.str "datasource"), ("uid", Json.str "-- Mixed --")]) ∧
        (panelTargets p).length = (getStringSliceAsStrings cfg "datasources").length ∧
        (panelTargets p).map (fun t => getField t "expr") =
          (getStringSliceAsStrings cfg "datasources").map
            (fun _ => some (Json.str (c.ResolveRef
              (if getString cfg "metric_type" "gauge" = "counter" then
                 "rate(" ++ getString cfg "metric" "up" ++ "[5m])"
               else getString cfg "metric" "up")))) ∧
        (panelTargets p).map (fun t => getField t "legendFormat") =
          (getStringSliceAsStrings cfg "datasources").map (fun n =>
            some (Json.str
              (if strContains ((match lookup cfg "legend" with
                                | some (Json.str s) => some s
                                | _ => none).getD (n ++ ": \x7b\x7binstance\x7d\x7d")) n then
                 (match lookup cfg "legend" with
                  | some (Json.str s) => some s
                  | _ => none).getD (n ++ ": \x7b\x7binstance\x7d\x7d")
               else n ++ ": " ++ (match lookup cfg "legend" with
                                  | some (Json.str s) => some s
                                  | _ => none).getD (n ++ ": \x7b\x7binstance\x7d\x7d"))))) := by
  constructor
  · intro c g cfg x y h
    rw [Panel.comparison, if_pos h]
  · intro c g cfg x y h2 hall
    obtain ⟨ts, hok, hlen, hexpr, hleg, _⟩ :=
      comparisonTargets_spec c (getString cfg "metric" "up")
        (getString cfg "metric_type" "gauge")
        (match lookup cfg "legend" with
         | some (Json.str s) => some s
         | _ => none)
        (getStringSliceAsStrings cfg "datasources") 0 hall
    refine ⟨comparisonPanelObj g cfg x y (getString cfg "metric" "up") ts, g + 1,
      ?_, rfl, ?_, ?_, ?_⟩
    · rw [Panel.comparison, if_neg (not_lt.mpr h2), hok]
    · rw [show panelTargets (comparisonPanelObj g cfg x y (getString cfg "metric" "up") ts) =
        ts from rfl, hlen]
    · rw [show panelTargets (comparisonPanelObj g cfg x y (getString cfg "metric" "up") ts) =
        ts from rfl, hexpr]
    · rw [show panelTargets (comparisonPanelObj g cfg x y (getString cfg "metric" "up") ts) =
        ts from rfl, hleg]

/-- Witness for C3 amended: a single-datasource comparison fails with the
validation error. -/
theorem comparison_behavior_witness :
    Panel.comparison testCfg 0 [("datasources", Json.arr [Json.str "primary"])] 0 0 =
      Except.error "comparison panel requires at least 2 datasources" :=
  comparison_behavior.1 testCfg 0 [("datasources", Json.arr [Json.str "primary"])] 0 0
    (by decide)

/-- Field shape of the stat constructor: type tag, fresh id and default
geometry when no explicit width or height is configured. -/
theorem stat_shape (c : Config) (g : Nat) (cfg : Obj) (x y : Int)
    (hwn : lookup cfg "width" = none) (hhn : lookup cfg "height" = none) :
    lookup (Panel.stat c g cfg x y).1 "type" = some (Json.str "stat") ∧
    lookup (Panel.stat c g cfg x y).1 "id" = some (Json.num ((g : ℚ) + 1)) ∧
    panelW (Panel.stat c g cfg x y).1 = some (Json.num ((3 : Int) : ℚ)) ∧
    panelH (Panel.stat c g cfg x y).1 = some (Json.num ((4 : Int) : ℚ)) := by
  refine ⟨rfl, rfl, ?_, ?_⟩
  · show some (Json.num ((getInt cfg "width" (defaultSize "stat").1 : Int) : ℚ)) =
      some (Json.num ((3 : Int) : ℚ))
    rw [getInt_none _ _ _ hwn]
    rfl
  · show some (Json.num ((getInt cfg "height" (defaultSize "stat").2 : Int) : ℚ)) =
      some (Json.num ((4 : Int) : ℚ))
    rw [getInt_none _ _ _ hhn]
    rfl

/-- Field shape of the gauge constructor: type tag, fresh id and default
geometry when no explicit width or height is configured. -/
theorem gauge_shape (c : Config) (g : Nat) (cfg : Obj) (x y : Int)
    (hwn : lookup cfg "width" = none) (hhn : lookup cfg "height" = none) :
    lookup (Panel.gauge c g cfg x y).1 "type" = some (Json.str "gauge") ∧
    lookup (Panel.gauge c g cfg x y).1 "id" = some (Json.num ((g : ℚ) + 1)) ∧
    panelW (Panel.gauge c g cfg x y).1 = some (Json.num ((3 : Int) : ℚ)) ∧
    panelH (Panel.gauge c g cfg x y).1 = some (Json.num ((4 : Int) : ℚ)) := by
  refine ⟨rfl, rfl, ?_, ?_⟩
  · show some (Json.num ((getInt cfg "width" (defaultSize "gauge").1 : Int) : ℚ)) =
      some (Json.num ((3 : Int) : ℚ))
    rw [getInt_none _ _ _ hwn]
    rfl
  · show some (Json.num ((getInt cfg "height" (defaultSize "gauge").2 : Int) : ℚ)) =
      some (Json.num ((4 : Int) : ℚ))
    rw [getInt_none _ _ _ hhn]
    rfl

/-- Field shape of the timeseries constructor: type tag, fresh id and default
geometry when no explicit width or height is configured. -/
theorem timeseries_shape (c : Config) (g : Nat) (cfg : Obj) (x y : Int)
    (hwn : lookup cfg "width" = none) (hhn : lookup cfg "height" = none) :
    lookup (Panel.timeseries c g cfg x y).1 "type" = some (Json.str "timeseries") ∧
    lookup (Panel.timeseries c g cfg x y).1 "id" = some (Json.num ((g : ℚ) + 1)) ∧
    panelW (Panel.timeseries c g cfg x y).1 = some (Json.num ((12 : Int) : ℚ)) ∧
    panelH (Panel.timeseries c g cfg x y).1 = some (Json.num ((7 : Int) : ℚ)) := by
  refine ⟨rfl, rfl, ?_, ?_⟩
  · show some (Json.num ((getInt cfg "width" (defaultSize "timeseries").1 : Int) : ℚ)) =
      some (Json.num ((12 : Int) : ℚ))
    rw [getInt_none _ _ _ hwn]
    rfl
  · show some (Json.num ((getInt cfg "height" (defaultSize "timeseries").2 : Int) : ℚ)) =
      some (Json.num ((7 : Int) : ℚ))
    rw [getInt_none _ _ _ hhn]
    rfl

/-- Field shape of the bargauge constructor: type tag, fresh id and default
geometry when no explicit width or height is configured. -/
theorem bargauge_shape (c : Config) (g : Nat) (cfg : Obj) (x y : Int)
    (hwn : lookup cfg "width" = none) (hhn : lookup cfg "height" = none) :
    lookup (Panel.bargauge c g cfg x y).1 "type" = some (Json.str "bargauge") ∧
    lookup (Panel.bargauge c g cfg x y).1 "id" = some (Json.num ((g : ℚ) + 1)) ∧
    panelW (Panel.bargauge c g cfg x y).1 = some (Json.num ((6 : Int) : ℚ)) ∧
    panelH (Panel.bargauge c g cfg x y).1 = some (Json.num ((5 : Int) : ℚ)) := by
  refine ⟨rfl, rfl, ?_, ?_⟩
  · show some (Json.num ((getInt cfg "width" (defaultSize "bargauge").1 : Int) : ℚ)) =
      some (Json.num ((6 : Int) : ℚ))
    rw [getInt_none _ _ _ hwn]
    rfl
  · show some (Json.num ((getInt cfg "height" (defaultSize "bargauge").2 : Int) : ℚ)) =
      some (Json.num ((5 : Int) : ℚ))
    rw [getInt_none _ _ _ hhn]
    rfl

/-- Field shape of the heatmap constructor: type tag, fresh id and default
geometry when no explicit width or height is configured. -/
theorem heatmap_shape (c : Config) (g : Nat) (cfg : Obj) (x y : Int)
    (hwn : lookup cfg "width" = none) (hhn : lookup cfg "height" = none) :
    lookup (Panel.heatmap c g cfg x y).1 "type" = some (Json.str "heatmap") ∧
    lookup (Panel.heatmap c g cfg x y).1 "id" = some (Json.num ((g : ℚ) + 1)) ∧
    panelW (Panel.heatmap c g cfg x y).1 = some (Json.num ((12 : Int) : ℚ)) ∧
    panelH (Panel.heatmap c g cfg x y).1 = some (Json.num ((8 : Int) : ℚ)) := by
  refine ⟨rfl, rfl, ?_, ?_⟩
  · show some (Json.num ((getInt cfg "width" (defaultSize "heatmap").1 : Int) : ℚ)) =
      some (Json.num ((12 : Int) : ℚ))
    rw [getInt_none _ _ _ hwn]
    rfl
  · show some (Json.num ((getInt cfg "height" (defaultSize "heatmap").2 : Int) : ℚ)) =
      some (Json.num ((8 : Int) : ℚ))
    rw [getInt_none _ _ _ hhn]
    rfl

/-- Field shape of the histogram constructor: type tag, fresh id and default
geometry when no explicit width or height is configured. -/
theorem histogram_shape (c : Config) (g : Nat) (cfg : Obj) (x y : Int)
    (hwn : lookup cfg "width" = none) (hhn : lookup cfg "height" = none) :
    lookup (Panel.histogram c g cfg x y).1 "type" = some (Json.str "histogram") ∧
    lookup (Panel.histogram c g cfg x y).1 "id" = some (Json.num ((g : ℚ) + 1)) ∧
    panelW (Panel.histogram c g cfg x y).1 = some (Json.num ((12 : Int) : ℚ)) ∧
    panelH (Panel.histogram c g cfg x y).1 = some (Json.num ((7 : Int) : ℚ)) := by
  refine ⟨rfl, rfl, ?_, ?_⟩
  · show some (Json.num ((getInt cfg "width" (defaultSize "histogram").1 : Int) : ℚ)) =
      some (Json.num ((12 : Int) : ℚ))
    rw [getInt_none _ _ _ hwn]
    rfl
  · show some (Json.num ((getInt cfg "height" (defaultSize "histogram").2 : Int) : ℚ)) =
      some (Json.num ((7 : Int) : ℚ))
    rw [getInt_none _ _ _ hhn]
    rfl

/-- Field shape of the table constructor: type tag, fresh id and default
geometry when no explicit width or height is configured. -/
theorem table_shape (c : Config) (g : Nat) (cfg : Obj) (x y : Int)
    (hwn : lookup cfg "width" = none) (hhn : lookup cfg "height" = none) :
    lookup (Panel.table c g cfg x y).1 "type" = some (Json.str "table") ∧
    lookup (Panel.table c g cfg x y).1 "id" = some (Json.num ((g : ℚ) + 1)) ∧
    panelW (Panel.table c g cfg x y).1 = some (Json.num ((24 : Int) : ℚ)) ∧
    panelH (Panel.table c g cfg x y).1 = some (Json.num ((8 : Int) : ℚ)) := by
  refine ⟨rfl, rfl, ?_, ?_⟩
  · show some (Json.num ((getInt cfg "width" (defaultSize "table").1 : Int) : ℚ)) =
      some (Json.num ((24 : Int) : ℚ))
    rw [getInt_none _ _ _ hwn]
    rfl
  · show some (Json.num ((getInt cfg "height" (defaultSize "table").2 : Int) : ℚ)) =
      some (Json.num ((8 : Int) : ℚ))
    rw [getInt_none _ _ _ hhn]
    rfl

/-- Field shape of the piechart constructor: type tag, fresh id and default
geometry when no explicit width or height is configured. -/
theorem piechart_shape (c : Config) (g : Nat) (cfg : Obj) (x y : Int)
    (hwn : lookup cfg "width" = none) (hhn : lookup cfg "height" = none) :
    lookup (Panel.piechart c g cfg x y).1 "type" = some (Json.str "piechart") ∧
    lookup (Panel.piechart c g cfg x y).1 "id" = some (Json.num ((g : ℚ) + 1)) ∧
    panelW (Panel.piechart c g cfg x y).1 = some (Json.num ((6 : Int) : ℚ)) ∧
    panelH (Panel.piechart c g cfg x y).1 = some (Json.num ((6 : Int) : ℚ)) := by
  refine ⟨rfl, rfl, ?_, ?_⟩
  · show some (Json.num ((getInt cfg "width" (defaultSize "piechart").1 : Int) : ℚ)) =
      some (Json.num ((6 : Int) : ℚ))
    rw [getInt_none _ _ _ hwn]
    rfl
  · show some (Json.num ((getInt cfg "height" (defaultSize "piechart").2 : Int) : ℚ)) =
      some (Json.num ((6 : Int) : ℚ))
    rw [getInt_none _ _ _ hhn]
    rfl

/-- Field shape of the state-timeline constructor: type tag, fresh id and default
geometry when no explicit width or height is configured. -/
theorem state_timeline_shape (c : Config) (g : Nat) (cfg : Obj) (x y : Int)
    (hwn : lookup cfg "width" = none) (hhn : lookup cfg "height" = none) :
    lookup (Panel.stateTimeline c g cfg x y).1 "type" = some (Json.str "state-timeline") ∧
    lookup (Panel.stateTimeline c g cfg x y).1 "id" = some (Json.num ((g : ℚ) + 1)) ∧
    panelW (Panel.stateTimeline c g cfg x y).1 = some (Json.num ((12 : Int) : ℚ)) ∧
    panelH (Panel.stateTimeline c g cfg x y).1 = some (Json.num ((5 : Int) : ℚ)) := by
  refine ⟨rfl, rfl, ?_, ?_⟩
  · show some (Json.num ((getInt cfg "width" (defaultSize "state-timeline").1 : Int) : ℚ)) =
      some (Json.num ((12 : Int) : ℚ))
    rw [getInt_none _ _ _ hwn]
    rfl
  · show some (Json.num ((getInt cfg "height" (defaultSize "state-timeline").2 : Int) : ℚ)) =
      some (Json.num ((5 : Int) : ℚ))
    rw [getInt_none _ _ _ hhn]
    rfl

/-- Field shape of the status-history constructor: type tag, fresh id and default
geometry when no explicit width or height is configured. -/
theorem status_history_shape (c : Config) (g : Nat) (cfg : Obj) (x y : Int)
    (hwn : lookup cfg "width" = none) (hhn : lookup cfg "height" = none) :
    lookup (Panel.statusHistory c g cfg x y).1 "type" = some (Json.str "status-history") ∧
    lookup (Panel.statusHistory c g cfg x y).1 "id" = some (Json.num ((g : ℚ) + 1)) ∧
    panelW (Panel.statusHistory c g cfg x y).1 = some (Json.num ((12 : Int) : ℚ)) ∧
    panelH (Panel.statusHistory c g cfg x y).1 = some (Json.num ((5 : Int) : ℚ)) := by
  refine ⟨rfl, rfl, ?_, ?_⟩
  · show some (Json.num ((getInt cfg "width" (defaultSize "status-history").1 : Int) : ℚ)) =
      some (Json.num ((12 : Int) : ℚ))
    rw [getInt_none _ _ _ hwn]
    rfl
  · show some (Json.num ((getInt cfg "height" (defaultSize "status-history").2 : Int) : ℚ)) =
      some (Json.num ((5 : Int) : ℚ))
    rw [getInt_none _ _ _ hhn]
    rfl

/-- Field shape of the text constructor: type tag, fresh id and default
geometry when no explicit width or height is configured. -/
theorem text_shape (c : Config) (g : Nat) (cfg : Obj) (x y : Int)
    (hwn : lookup cfg "width" = none) (hhn : lookup cfg "height" = none) :
    lookup (Panel.text c g cfg x y).1 "type" = some (Json.str "text") ∧
    lookup (Panel.text c g cfg x y).1 "id" = some (Json.num ((g : ℚ) + 1)) ∧
    panelW (Panel.text c g cfg x y).1 = some (Json.num ((24 : Int) : ℚ)) ∧
    panelH (Panel.text c g cfg x y).1 = some (Json.num ((3 : Int) : ℚ)) := by
  refine ⟨rfl, rfl, ?_, ?_⟩
  · show some (Json.num ((getInt cfg "width" (defaultSize "text").1 : Int) : ℚ)) =
      some (Json.num ((24 : Int) : ℚ))
    rw [getInt_none _ _ _ hwn]
    rfl
  · show some (Json.num ((getInt cfg "height" (defaultSize "text").2 : Int) : ℚ)) =
      some (Json.num ((3 : Int) : ℚ))
    rw [getInt_none _ _ _ hhn]
    rfl

/-- Field shape of the logs constructor: type tag, fresh id and default
geometry when no explicit width or height is configured. -/
theorem logs_shape (c : Config) (g : Nat) (cfg : Obj) (x y : Int)
    (hwn : lookup cfg "width" = none) (hhn : lookup cfg "height" = none) :
    lookup (Panel.logs c g cfg x y).1 "type" = some (Json.str "logs") ∧
    lookup (Panel.logs c g cfg x y).1 "id" = some (Json.num ((g : ℚ) + 1)) ∧
    panelW (Panel.logs c g cfg x y).1 = some (Json.num ((24 : Int) : ℚ)) ∧
    panelH (Panel.logs c g cfg x y).1 = some (Json.num ((8 : Int) : ℚ)) := by
  refine ⟨rfl, rfl, ?_, ?_⟩
  · show some (Json.num ((getInt cfg "width" (defaultSize "logs").1 : Int) : ℚ)) =
      some (Json.num ((24 : Int) : ℚ))
    rw [getInt_none _ _ _ hwn]
    rfl
  · show some (Json.num ((getInt cfg "height" (defaultSize "logs").2 : Int) : ℚ)) =
      some (Json.num ((8 : Int) : ℚ))
    rw [getInt_none _ _ _ hhn]
    rfl

/-- Field shape of the dedicated row constructor: type "row", fresh id and
the fixed full-width 24 by 1 geometry, with or without a repeat variable. -/
theorem row_shape (g : Nat) (title : String) (y : Int) (collapsed : Bool)
    (panels : List Json) (repeatVar : String) :
    lookup (Panel.row g title y collapsed panels repeatVar).1 "type" =
      some (Json.str "row") ∧
    lookup (Panel.row g title y collapsed panels repeatVar).1 "id" =
      some (Json.num ((g : ℚ) + 1)) ∧
    panelW (Panel.row g title y collapsed panels repeatVar).1 = some (Json.num 24) ∧
    panelH (Panel.row g title y collapsed panels repeatVar).1 = some (Json.num 1) := by
  have h1 : (Panel.row g title y collapsed panels repeatVar).1 =
      (if repeatVar ≠ "" then
        [("collapsed", Json.bool collapsed),
         ("gridPos", Json.obj
           [("h", Json.num 1), ("w", Json.num 24), ("x", Json.num 0),
            ("y", Json.num (y : ℚ))]),
         ("id", Json.num ((g : ℚ) + 1)),
         ("panels", Json.arr panels),
         ("title", Json.str title),
         ("type", Json.str "row")] ++
          [("repeat", Json.str repeatVar), ("repeatDirection", Json.str "h")]
       else
        [("collapsed", Json.bool collapsed),
         ("gridPos", Json.obj
           [("h", Json.num 1), ("w", Json.num 24), ("x", Json.num 0),
            ("y", Json.num (y : ℚ))]),
         ("id", Json.num ((g : ℚ) + 1)),
         ("panels", Json.arr panels),
         ("title", Json.str title),
         ("type", Json.str "row")]) := rfl
  rw [h1]
  by_cases hr : repeatVar ≠ ""
  · rw [if_pos hr]
    exact ⟨rfl, rfl, rfl, rfl⟩
  · rw [if_neg hr]
    exact ⟨rfl, rfl, rfl, rfl⟩

/-- C1 counterexample: "row" is one of the 14 DefaultSizes tags, but a spec
carrying type "row" is not constructible through FromConfig — it fails with
the unknown-type error instead of succeeding as the claim states. -/
theorem row_not_constructible_counterexample :
    ("row", ((24 : Int), (1 : Int))) ∈ DefaultSizes ∧
    FromConfig testCfg 0 [("type", Json.str "row")] 0 0 =
      Except.error "unknown panel type: row" :=
  ⟨by decide, rfl⟩

/-- C1 amended: for the 12 tags FromConfig dispatches (all DefaultSizes tags
except "row" and "comparison"), construction with no explicit width/height
succeeds with the tag as output type, the positive id counter + 1, and the
documented default geometry. A "comparison" spec (needing at least two
resolvable datasources) succeeds with the default 12 by 8 geometry and a
positive id but emits type "timeseries", not "comparison". A "row" spec is
rejected by FromConfig with the unknown-type error; row panels come only
from the dedicated Row constructor, which emits type "row" at the fixed
24 by 1 default. -/
theorem panel_defaults_by_type :
    (∀ e ∈ DefaultSizes, e.1 ≠ "row" → e.1 ≠ "comparison" →
      ∀ (c : Config) (g : Nat) (cfg : Obj) (x y : Int),
        lookup cfg "type" = some (Json.str e.1) →
        lookup cfg "width" = none → lookup cfg "height" = none →
        ∃ p : Obj, ∃ g' : Nat,
          FromConfig c g cfg x y = Except.ok (p, g') ∧
          lookup p "type" = some (Json.str e.1) ∧
          lookup p "id" = some (Json.num ((g : ℚ) + 1)) ∧
          (0 : ℚ) < (g : ℚ) + 1 ∧
          panelW p = some (Json.num ((e.2.1 : ℚ))) ∧
          panelH p = some (Json.num ((e.2.2 : ℚ)))) ∧
    (∀ (c : Config) (g : Nat) (cfg : Obj) (x y : Int),
      lookup cfg "type" = some (Json.str "row") →
      FromConfig c g cfg x y = Except.error "unknown panel type: row") ∧
    (∀ (g : Nat) (title : String) (y : Int) (collapsed : Bool)
        (panels : List Json) (repeatVar : String),
      lookup (Panel.row g title y collapsed panels repeatVar).1 "type" =
        some (Json.str "row") ∧
      panelW (Panel.row g title y collapsed panels repeatVar).1 = some (Json.num 24) ∧
      panelH (Panel.row g title y collapsed panels repeatVar).1 = some (Json.num 1)) ∧
    (∀ (c : Config) (g : Nat) (cfg : Obj) (x y : Int),
      lookup cfg "type" = some (Json.str "comparison") →
      lookup cfg "width" = none → lookup cfg "height" = none →
      2 ≤ (getStringSliceAsStrings cfg "datasources").length →
      (∀ n ∈ getStringSliceAsStrings cfg "datasources",
        (c.GetDatasource n).toOption.isSome) →
      ∃ p : Obj, ∃ g' : Nat,
        FromConfig c g cfg x y = Except.ok (p, g') ∧
        lookup p "type" = some (Json.str "timeseries") ∧
        ¬ lookup p "type" = some (Json.str "comparison") ∧
        lookup p "id" = some (Json.num ((g : ℚ) + 1)) ∧
        (0 : ℚ) < (g : ℚ) + 1 ∧
        panelW p = some (Json.num ((12 : Int) : ℚ)) ∧
        panelH p = some (Json.num ((8 : Int) : ℚ))) := by
  refine ⟨?_, ?_, ?_, ?_⟩
  · intro e he hrow hcomp c g cfg x y htype hwn hhn
    fin_cases he
    · exact ⟨(Panel.stat c g cfg x y).1, (Panel.stat c g cfg x y).2,
        by rw [FromConfig, getString_some _ _ _ _ htype]; rfl,
        (stat_shape c g cfg x y hwn hhn).1, (stat_shape c g cfg x y hwn hhn).2.1,
        by positivity,
        (stat_shape c g cfg x y hwn hhn).2.2.1, (stat_shape c g cfg x y hwn hhn).2.2.2⟩
    · exact ⟨(Panel.gauge c g cfg x y).1, (Panel.gauge c g cfg x y).2,
        by rw [FromConfig, getString_some _ _ _ _ htype]; rfl,
        (gauge_shape c g cfg x y hwn hhn).1, (gauge_shape c g cfg x y hwn hhn).2.1,
        by positivity,
        (gauge_shape c g cfg x y hwn hhn).2.2.1, (gauge_shape c g cfg x y hwn hhn).2.2.2⟩
    · exact ⟨(Panel.timeseries c g cfg x y).1, (Panel.timeseries c g cfg x y).2,
        by rw [FromConfig, getString_some _ _ _ _ htype]; rfl,
        (timeseries_shape c g cfg x y hwn hhn).1,
        (timeseries_shape c g cfg x y hwn hhn).2.1,
        by positivity,
        (timeseries_shape c g cfg x y hwn hhn).2.2.1,
        (timeseries_shape c g cfg x y hwn hhn).2.2.2⟩
    · exact ⟨(Panel.bargauge c g cfg x y).1, (Panel.bargauge c g cfg x y).2,
        by rw [FromConfig, getString_some _ _ _ _ htype]; rfl,
        (bargauge_shape c g cfg x y hwn hhn).1, (bargauge_shape c g cfg x y hwn hhn).2.1,
        by positivity,
        (bargauge_shape c g cfg x y hwn hhn).2.2.1,
        (bargauge_shape c g cfg x y hwn hhn).2.2.2⟩
    · exact ⟨(Panel.heatmap c g cfg x y).1, (Panel.heatmap c g cfg x y).2,
        by rw [FromConfig, getString_some _ _ _ _ htype]; rfl,
        (heatmap_shape c g cfg x y hwn hhn).1, (heatmap_shape c g cfg x y hwn hhn).2.1,
        by positivity,
        (heatmap_shape c g cfg x y hwn hhn).2.2.1,
        (heatmap_shape c g cfg x y hwn hhn).2.2.2⟩
    · exact ⟨(Panel.histogram c g cfg x y).1, (Panel.histogram c g cfg x y).2,
        by rw [FromConfig, getString_some _ _ _ _ htype]; rfl,
        (histogram_shape c g cfg x y hwn hhn).1,
        (histogram_shape c g cfg x y hwn hhn).2.1,
        by positivity,
        (histogram_shape c g cfg x y hwn hhn).2.2.1,
        (histogram_shape c g cfg x y hwn hhn).2.2.2⟩
    · exact ⟨(Panel.table c g cfg x y).1, (Panel.table c g cfg x y).2,
        by rw [FromConfig, getString_some _ _ _ _ htype]; rfl,
        (table_shape c g cfg x y hwn hhn).1, (table_shape c g cfg x y hwn hhn).2.1,
        by positivity,
        (table_shape c g cfg x y hwn hhn).2.2.1, (table_shape c g cfg x y hwn hhn).2.2.2⟩
    · exact ⟨(Panel.piechart c g cfg x y).1, (Panel.piechart c g cfg x y).2,
        by rw [FromConfig, getString_some _ _ _ _ htype]; rfl,
        (piechart_shape c g cfg x y hwn hhn).1, (piechart_shape c g cfg x y hwn hhn).2.1,
        by positivity,
        (piechart_shape c g cfg x y hwn hhn).2.2.1,
        (piechart_shape c g cfg x y hwn hhn).2.2.2⟩
    · exact ⟨(Panel.stateTimeline c g cfg x y).1, (Panel.stateTimeline c g cfg x y).2,
        by rw [FromConfig, getString_some _ _ _ _ htype]; rfl,
        (state_timeline_shape c g cfg x y hwn hhn).1,
        (state_timeline_shape c g cfg x y hwn hhn).2.1,
        by positivity,
        (state_timeline_shape c g cfg x y hwn hhn).2.2.1,
        (state_timeline_shape c g cfg x y hwn hhn).2.2.2⟩
    · exact ⟨(Panel.statusHistory c g cfg x y).1, (Panel.statusHistory c g cfg x y).2,
        by rw [FromConfig, getString_some _ _ _ _ htype]; rfl,
        (status_history_shape c g cfg x y hwn hhn).1,
        (status_history_shape c g cfg x y hwn hhn).2.1,
        by positivity,
        (status_history_shape c g cfg x y hwn hhn).2.2.1,
        (status_history_shape c g cfg x y hwn hhn).2.2.2⟩
    · exact ⟨(Panel.text c g cfg x y).1, (Panel.text c g cfg x y).2,
        by rw [FromConfig, getString_some _ _ _ _ htype]; rfl,
        (text_shape c g cfg x y hwn hhn).1, (text_shape c g cfg x y hwn hhn).2.1,
        by positivity,
        (text_shape c g cfg x y hwn hhn).2.2.1, (text_shape c g cfg x y hwn hhn).2.2.2⟩
    · exact ⟨(Panel.logs c g cfg x y).1, (Panel.logs c g cfg x y).2,
        by rw [FromConfig, getString_some _ _ _ _ htype]; rfl,
        (logs_shape c g cfg x y hwn hhn).1, (logs_shape c g cfg x y hwn hhn).2.1,
        by positivity,
        (logs_shape c g cfg x y hwn hhn).2.2.1, (logs_shape c g cfg x y hwn hhn).2.2.2⟩
    · exact absurd rfl hrow
    · exact absurd rfl hcomp
  · intro c g cfg x y htype
    rw [FromConfig, getString_some _ _ _ _ htype]
    rfl
  · intro g title y collapsed panels repeatVar
    exact ⟨(row_shape g title y collapsed panels repeatVar).1,
      (row_shape g title y collapsed panels repeatVar).2.2.1,
      (row_shape g title y collapsed panels repeatVar).2.2.2⟩
  · intro c g cfg x y htype hwn hhn h2 hall
    obtain ⟨ts, hok, _, _, _, _⟩ :=
      comparisonTargets_spec c (getString cfg "metric" "up")
        (getString cfg "metric_type" "gauge")
        (match lookup cfg "legend" with
         | some (Json.str s) => some s
         | _ => none)
        (getStringSliceAsStrings cfg "datasources") 0 hall
    refine ⟨comparisonPanelObj g cfg x y (getString cfg "metric" "up") ts, g + 1,
      ?_, rfl, ?_, rfl, by positivity, ?_, ?_⟩
    · rw [FromConfig, getString_some _ _ _ _ htype]
      show Panel.comparison c g cfg x y = _
      rw [Panel.comparison, if_neg (not_lt.mpr h2), hok]
    · intro hcon
      exact absurd
        (show some (Json.str "timeseries") = some (Json.str "comparison") from hcon)
        (by simp)
    · show some (Json.num ((getInt cfg "width" (defaultSize "comparison").1 : Int) : ℚ)) =
        some (Json.num ((12 : Int) : ℚ))
      rw [getInt_none _ _ _ hwn]
      rfl
    · show some (Json.num ((getInt cfg "height" (defaultSize "comparison").2 : Int) : ℚ)) =
        some (Json.num ((8 : Int) : ℚ))
      rw [getInt_none _ _ _ hhn]
      rfl

/-- Witness for C1 amended: a "row" spec is rejected by FromConfig. -/
theorem panel_defaults_by_type_witness :
    FromConfig testCfg 0 [("type", Json.str "row")] 0 0 =
      Except.error "unknown panel type: row" :=
  panel_defaults_by_type.2.1 testCfg 0 [("type", Json.str "row")] 0 0 rfl
